import Mathlib

/-!
Verification development for the pantry-item extraction pipeline
(`core/services/ai_image_processing.py`) and the expiry sweep
(`core/signals.py`).

The Python code is shallowly embedded: Python scalar values become the
`PyVal` inductive (with Python truthiness and `==` semantics), dicts become
association lists with insert-or-replace semantics, `re` patterns become a
small executable regular-expression engine with Python `findall` scanning
semantics, `datetime.strptime` becomes a token-by-token format matcher, and
`json.loads` becomes an executable JSON parser.  The external vision
collaborator is modelled by `VisionOut` (the call either raises or returns a
response string), and the clock collaborator is an explicit `currentYear` /
`today` argument.
-/

set_option maxHeartbeats 2000000
set_option maxRecDepth 4000

/-- A calendar date as produced by `datetime.date`. -/
structure PyDate where
  year : Nat
  month : Nat
  day : Nat
deriving DecidableEq

/-- An unnormalized fraction `n / d` (`d` positive by construction): the
numeric value of a Python `int`/`float` as extracted from decimal text.
Kept unnormalized so that every arithmetic step is kernel-computable;
Python `==` is value equality, modelled by cross-multiplication. -/
structure PyNum where
  n : Int
  d : Nat
deriving DecidableEq

instance : BEq PyNum :=
  ⟨fun a b => a.n * (b.d : Int) == b.n * (a.d : Int)⟩

instance (k : Nat) : OfNat PyNum k :=
  ⟨⟨(k : Int), 1⟩⟩

/-- Python runtime values that flow through the pipeline: `None`, strings,
numbers (`int`/`float` unified as exact fractions), booleans,
`datetime.date` objects, JSON objects (dicts) and JSON arrays. -/
inductive PyVal where
  | none
  | str (s : String)
  | num (q : PyNum)
  | boolean (b : Bool)
  | date (d : PyDate)
  | dict (entries : List (String × PyVal))
  | listv (elems : List PyVal)

/-- A Python dict with string keys, as an insertion-ordered association list. -/
abbrev PyDict := List (String × PyVal)

/-- Python truthiness (`bool(v)`): `None`, `""`, `0`, `False`, empty
containers are falsy; everything else (including any date) is truthy. -/
def pyTruthy : PyVal → Bool
  | .none => false
  | .str s => !s.data.isEmpty
  | .num q => !(q == (0 : PyNum))
  | .boolean b => b
  | .date _ => true
  | .dict d => !d.isEmpty
  | .listv l => !l.isEmpty

/-- Python `==` on the values compared by the embedded code.  Numbers and
booleans compare numerically (`True == 1.0` in Python); values of different
kinds otherwise compare unequal.  (Container-to-container comparison never
occurs on any embedded code path, so it is modelled as `false`.) -/
def pyEq : PyVal → PyVal → Bool
  | .none, .none => true
  | .str a, .str b => a == b
  | .num a, .num b => a == b
  | .boolean a, .boolean b => a == b
  | .boolean a, .num b => (if a then (1 : PyNum) else 0) == b
  | .num a, .boolean b => a == (if b then (1 : PyNum) else 0)
  | .date a, .date b => a == b
  | _, _ => false

/-- First binding of a key in a dict. -/
def dLookup : PyDict → String → Option PyVal
  | [], _ => Option.none
  | (k1, v1) :: t, k => if k1 == k then some v1 else dLookup t k

/-- Python `d.get(k)`: the bound value, or `None` when the key is absent. -/
def dGet (d : PyDict) (k : String) : PyVal :=
  (dLookup d k).getD .none

/-- Python `k in d`. -/
def dHas (d : PyDict) (k : String) : Bool :=
  (dLookup d k).isSome

/-- Python `d[k] = v`: replace in place if the key exists, else append. -/
def dSet : PyDict → String → PyVal → PyDict
  | [], k, v => [(k, v)]
  | (k1, v1) :: t, k, v =>
      if k1 == k then (k1, v) :: t else (k1, v1) :: dSet t k v

/-- Python `d.update(d2)`: set every binding of `d2`, in order. -/
def dUpdate (d d2 : PyDict) : PyDict :=
  d2.foldl (fun acc kv => dSet acc kv.1 kv.2) d

@[simp] theorem dLookup_dSet_self (d : PyDict) (k : String) (v : PyVal) :
    dLookup (dSet d k v) k = some v := by
  induction d with
  | nil => simp [dSet, dLookup]
  | cons h t ih =>
      by_cases hk : h.1 = k
      · simp [dSet, dLookup, hk]
      · simp [dSet, dLookup, hk, ih]

theorem dLookup_dSet_ne (d : PyDict) (k k2 : String) (v : PyVal)
    (h : k ≠ k2) : dLookup (dSet d k v) k2 = dLookup d k2 := by
  induction d with
  | nil => simp [dSet, dLookup, h]
  | cons hd t ih =>
      by_cases hk : hd.1 = k
      · simp [dSet, dLookup, hk, h]
      · simp [dSet, dLookup, hk, ih]

theorem dLookup_dUpdate_notmem (d d2 : PyDict) (k : String)
    (h : ∀ kv ∈ d2, kv.1 ≠ k) :
    dLookup (dUpdate d d2) k = dLookup d k := by
  induction d2 generalizing d with
  | nil => simp [dUpdate]
  | cons hd t ih =>
      have hne : hd.1 ≠ k := h hd (List.mem_cons_self hd t)
      have : dUpdate d (hd :: t) = dUpdate (dSet d hd.1 hd.2) t := by
        simp [dUpdate, List.foldl_cons]
      rw [this, ih _ (fun kv hkv => h kv (List.mem_cons_of_mem hd hkv)),
        dLookup_dSet_ne _ _ _ _ hne]

@[simp] theorem dGet_dSet_self (d : PyDict) (k : String) (v : PyVal) :
    dGet (dSet d k v) k = v := by
  simp [dGet]

theorem dGet_dSet_ne (d : PyDict) (k k2 : String) (v : PyVal) (h : k ≠ k2) :
    dGet (dSet d k v) k2 = dGet d k2 := by
  simp [dGet, dLookup_dSet_ne _ _ _ _ h]

@[simp] theorem dHas_dSet_self (d : PyDict) (k : String) (v : PyVal) :
    dHas (dSet d k v) k = true := by
  simp [dHas]

theorem dHas_dSet_ne (d : PyDict) (k k2 : String) (v : PyVal) (h : k ≠ k2) :
    dHas (dSet d k v) k2 = dHas d k2 := by
  simp [dHas, dLookup_dSet_ne _ _ _ _ h]

/-- Python string lowercasing (`str.lower`), ASCII as in the source texts. -/
def lowerStr (s : String) : String :=
  String.mk (s.data.map Char.toLower)

/-- Characters stripped by Python `str.strip()`. -/
def isPyWs (c : Char) : Bool :=
  c == ' ' || c == '\t' || c == '\n' || c == '\r' || c == '\x0b' || c == '\x0c'

/-- Python `str.strip()`. -/
def pyStrip (s : String) : String :=
  String.mk (((s.data.dropWhile isPyWs).reverse.dropWhile isPyWs).reverse)

/-- Characterwise splitter for Python `text.split('\n')`. -/
def pySplitNlAux : List Char → List Char → List String
  | [], cur => [String.mk cur.reverse]
  | c :: t, cur =>
      if c == '\n' then String.mk cur.reverse :: pySplitNlAux t []
      else pySplitNlAux t (c :: cur)

/-- Python `text.split('\n')`. -/
def pySplitNl (s : String) : List String :=
  pySplitNlAux s.data []

/-- Python `s.startswith(p)`. -/
def pyStartsWith (s p : String) : Bool :=
  p.data.isPrefixOf s.data

/-- Digits of a numeral, most significant first, to a natural number. -/
def digitsToNat (cs : List Char) : Nat :=
  cs.foldl (fun a c => a * 10 + (c.toNat - 48)) 0

/-- Python `float(s)` restricted to the shapes the regexes capture
(`\d+\.?\d*` and `\d+`): the exact value `ip.fp`. -/
def strToFloat (s : String) : PyNum :=
  let ip := s.data.takeWhile (fun c => c ≠ '.')
  let fp := (s.data.dropWhile (fun c => c ≠ '.')).drop 1
  ⟨(digitsToNat ip * 10 ^ fp.length + digitsToNat fp : Nat), 10 ^ fp.length⟩

/-- Lexicographic date comparison, as Django evaluates `expiry_date__lt`. -/
def dateLt (a b : PyDate) : Bool :=
  a.year < b.year ||
    (a.year == b.year &&
      (a.month < b.month || (a.month == b.month && a.day < b.day)))

/-- Leap-year rule used by `datetime.date`. -/
def isLeap (y : Nat) : Bool :=
  y % 4 == 0 && (y % 100 != 0 || y % 400 == 0)

/-- Days in a month, as validated by the `datetime.date` constructor. -/
def daysInMonth (y m : Nat) : Nat :=
  if m == 2 then (if isLeap y then 29 else 28)
  else if m == 4 || m == 6 || m == 9 || m == 11 then 30
  else 31

/-- `datetime.date(y, m, d)`: `none` models the `ValueError` on an invalid
date (month out of range, day past month end, year outside 1..9999). -/
def mkDate (y m d : Nat) : Option PyDate :=
  if 1 ≤ y && y ≤ 9999 && 1 ≤ m && m ≤ 12 && 1 ≤ d && d ≤ daysInMonth y m then
    some ⟨y, m, d⟩
  else
    Option.none

/-- `str(date)`: zero-padded ISO rendering used in the waste-record details. -/
def dateIso (d : PyDate) : String :=
  let pad2 := fun (n : Nat) => if n < 10 then "0" ++ toString n else toString n
  let pad4 := fun (n : Nat) =>
    if n < 10 then "000" ++ toString n
    else if n < 100 then "00" ++ toString n
    else if n < 1000 then "0" ++ toString n
    else toString n
  pad4 d.year ++ "-" ++ pad2 d.month ++ "-" ++ pad2 d.day

/-! ## A small regular-expression engine

Sufficient for the `re` patterns in `ai_image_processing.py`: character
classes, concatenation, leftmost alternation, greedy `*`/`+`/`?`, greedy
counted repetition, capture groups, and `\b` word boundaries, with Python
backtracking priority and `re.findall` non-overlapping left-to-right
scanning. -/

/-- Regular-expression abstract syntax. -/
inductive RE where
  | eps
  | cls (p : Char → Bool)
  | seq (a b : RE)
  | alt (a b : RE)
  | star (a : RE)
  | grp (n : Nat) (a : RE)
  | wordB

/-- Captured groups: group number to captured characters. -/
abbrev Caps := List (Nat × List Char)

/-- Record a capture (later captures of the same group win). -/
def capSet (n : Nat) (cs : List Char) (caps : Caps) : Caps :=
  (n, cs) :: caps

/-- Fetch a capture. -/
def capGet (n : Nat) (caps : Caps) : List Char :=
  match caps.find? (fun kv => kv.1 == n) with
  | some kv => kv.2
  | Option.none => []

/-- Python `\w` for the purpose of `\b`. -/
def isWordChar (c : Char) : Bool :=
  c.isAlpha || c.isDigit || c == '_'

/-- Does a `\b` boundary hold between the previous character and the rest? -/
def atWordBoundary (prev : Option Char) (s : List Char) : Bool :=
  let l := match prev with
    | some c => isWordChar c
    | Option.none => false
  let r := match s with
    | c :: _ => isWordChar c
    | [] => false
  l != r

/-- Backtracking matcher with Python priority: the first result delivered to
the continuation `k` that succeeds is the overall result (leftmost
alternative first, greedy repetition first).  `prev` is the character before
the current position (for `\b`).  `fuel` bounds recursion depth and is
always ample for the embedded patterns. -/
def reM (fuel : Nat) (re : RE) (prev : Option Char) (s : List Char)
    (caps : Caps)
    (k : Caps → Option Char → List Char → Option (Caps × Option Char × List Char)) :
    Option (Caps × Option Char × List Char) :=
  match fuel with
  | 0 => Option.none
  | fuel + 1 =>
    match re with
    | .eps => k caps prev s
    | .cls p =>
        match s with
        | [] => Option.none
        | c :: t => if p c then k caps (some c) t else Option.none
    | .seq a b =>
        reM fuel a prev s caps fun caps1 prev1 s1 => reM fuel b prev1 s1 caps1 k
    | .alt a b =>
        match reM fuel a prev s caps k with
        | some r => some r
        | Option.none => reM fuel b prev s caps k
    | .star a =>
        match reM fuel a prev s caps (fun caps1 prev1 s1 =>
            if s1.length < s.length then reM fuel (.star a) prev1 s1 caps1 k
            else Option.none) with
        | some r => some r
        | Option.none => k caps prev s
    | .grp n a =>
        reM fuel a prev s caps fun caps1 prev1 s1 =>
          k (capSet n (s.take (s.length - s1.length)) caps1) prev1 s1
    | .wordB => if atWordBoundary prev s then k caps prev s else Option.none

/-- First (highest-priority) match of `re` at the start of `s`. -/
def reFirst (re : RE) (prev : Option Char) (s : List Char) :
    Option (Caps × Option Char × List Char) :=
  reM (s.length + 400) re prev s [] fun caps prev1 rest => some (caps, prev1, rest)

/-- Non-overlapping left-to-right scan, as `re.findall`: at each position try
a match; on success continue after it (one character forward on an empty
match), on failure slide one character. Yields (whole match, captures). -/
def reScan (fuel : Nat) (re : RE) (prev : Option Char) (s : List Char) :
    List (List Char × Caps) :=
  match fuel with
  | 0 => []
  | fuel + 1 =>
    match reFirst re prev s with
    | some (caps, prevA, rest) =>
        let whole := s.take (s.length - rest.length)
        if whole.isEmpty then
          match s with
          | [] => [([], caps)]
          | c :: t => ([], caps) :: reScan fuel re (some c) t
        else (whole, caps) :: reScan fuel re prevA rest
    | Option.none =>
        match s with
        | [] => []
        | c :: t => reScan fuel re (some c) t

/-- All matches of `re` in `s`, leftmost first. -/
def findallRaw (re : RE) (s : String) : List (List Char × Caps) :=
  reScan (s.data.length + 1) re Option.none s.data

/-- `re.findall` for a pattern with exactly one capture group. -/
def findall1 (re : RE) (s : String) : List String :=
  (findallRaw re s).map fun m => String.mk (capGet 1 m.2)

/-- `re.findall` for a pattern with exactly two capture groups. -/
def findall2 (re : RE) (s : String) : List (String × String) :=
  (findallRaw re s).map fun m => (String.mk (capGet 1 m.2), String.mk (capGet 2 m.2))

/-- `re.findall` for a pattern with no capture group (whole matches). -/
def findall0 (re : RE) (s : String) : List String :=
  (findallRaw re s).map fun m => String.mk m.1

/-- `re.search(pattern, s) is not None`. -/
def reSearch (re : RE) (s : String) : Bool :=
  !(findallRaw re s).isEmpty

/-- Literal character. -/
def rCh (c : Char) : RE := .cls (fun x => x == c)

/-- Literal string. -/
def rStr (s : String) : RE :=
  s.data.foldr (fun c acc => .seq (rCh c) acc) .eps

/-- Concatenation of a list. -/
def rCat (l : List RE) : RE :=
  l.foldr .seq .eps

/-- Leftmost-priority alternation of a nonempty list. -/
def rAlts : List RE → RE
  | [] => .eps
  | [r] => r
  | r :: t => .alt r (rAlts t)

/-- Greedy `r?`. -/
def rOpt (r : RE) : RE := .alt r .eps

/-- Greedy `r+`. -/
def rPlus (r : RE) : RE := .seq r (.star r)

/-- `r` exactly `n` times. -/
def rTimes : Nat → RE → RE
  | 0, _ => .eps
  | n + 1, r => .seq r (rTimes n r)

/-- Greedy `r{0,n}` (prefer more repetitions). -/
def rUpTo : Nat → RE → RE
  | 0, _ => .eps
  | n + 1, r => .alt (.seq r (rUpTo n r)) .eps

/-- Greedy counted repetition `r{lo,hi}`. -/
def rRep (lo hi : Nat) (r : RE) : RE :=
  .seq (rTimes lo r) (rUpTo (hi - lo) r)

/-- Greedy `r{lo,}`. -/
def rAtLeast (lo : Nat) (r : RE) : RE :=
  .seq (rTimes lo r) (.star r)

/-- `\d` / `[0-9]`. -/
def chD : RE := .cls Char.isDigit

/-- Python `\s` over the ASCII range. -/
def isReWs (c : Char) : Bool :=
  c == ' ' || c == '\t' || c == '\n' || c == '\r' || c == '\x0b' || c == '\x0c'

/-- `\s`. -/
def chS : RE := .cls isReWs

/-- `[a-zA-Z]`. -/
def chAl : RE := .cls Char.isAlpha

/-- `[:\s]`. -/
def chColS : RE := .cls (fun c => c == ':' || isReWs c)

/-- `[/\-\.]`. -/
def chSep : RE := .cls (fun c => c == '/' || c == '-' || c == '.')

/-- `[^.]`. -/
def chNotDot : RE := .cls (fun c => c != '.')

/-- `[A-Z0-9]`. -/
def chUpD : RE := .cls (fun c => (c.isUpper || c.isDigit))

/-! ## Patterns from `ai_image_processing.py`, transcribed -/

/-- `\d+\.?\d*`. -/
def floatNum : RE := rCat [rPlus chD, rOpt (rCh '.'), .star chD]

/-- `(?:expiry|exp|best before|use by|use before|best by)`. -/
def dateKw : RE :=
  rAlts [rStr "expiry", rStr "exp", rStr "best before", rStr "use by",
    rStr "use before", rStr "best by"]

/-- `[0-9]{1,2}[/\-\.][0-9]{1,2}[/\-\.][0-9]{2,4}`. -/
def numDate : RE :=
  rCat [rRep 1 2 chD, chSep, rRep 1 2 chD, chSep, rRep 2 4 chD]

/-- `[a-zA-Z]{3,9}\s+[0-9]{1,2},?\s+[0-9]{4}`. -/
def txtDate1 : RE :=
  rCat [rRep 3 9 chAl, rPlus chS, rRep 1 2 chD, rOpt (rCh ','), rPlus chS,
    rTimes 4 chD]

/-- `[0-9]{1,2}\s+[a-zA-Z]{3,9}\s+[0-9]{4}`. -/
def txtDate2 : RE :=
  rCat [rRep 1 2 chD, rPlus chS, rRep 3 9 chAl, rPlus chS, rTimes 4 chD]

/-- The ordered `patterns` list of `parse_expiry_date_from_text`. -/
def expiryPatterns : List RE :=
  [ rCat [dateKw, .star chColS, .grp 1 numDate],
    rCat [dateKw, .star chColS, .grp 1 txtDate1],
    rCat [dateKw, .star chColS, .grp 1 txtDate2],
    rCat [.wordB, .grp 1 numDate, .wordB],
    rCat [.wordB, .grp 1 txtDate1, .wordB],
    rCat [.wordB, .grp 1 txtDate2, .wordB],
    rCat [.wordB, .grp 1 (rCat [rRep 3 9 chAl, rPlus chS, rTimes 4 chD]), .wordB],
    rCat [.wordB, .grp 1 (rCat [rRep 1 2 chD, rCh '/', rTimes 4 chD]), .wordB] ]

/-! ## `datetime.strptime`, for the formats in `try_parse_date` -/

/-- One directive or literal of a `strptime` format string.  A literal
whitespace in the format matches `\s+` (as CPython compiles it). -/
inductive FTok where
  | lit (c : Char)
  | ws
  | D
  | M
  | Y4
  | Y2
  | B
  | Bab

/-- Full month names with their numbers, longest first (CPython builds the
alternation sorted by length, longest first). -/
def monthsFull : List (String × Nat) :=
  [("september", 9), ("february", 2), ("november", 11), ("december", 12),
   ("january", 1), ("october", 10), ("august", 8), ("march", 3), ("april", 4),
   ("june", 6), ("july", 7), ("may", 5)]

/-- Abbreviated month names with their numbers. -/
def monthsAbbr : List (String × Nat) :=
  [("jan", 1), ("feb", 2), ("mar", 3), ("apr", 4), ("may", 5), ("jun", 6),
   ("jul", 7), ("aug", 8), ("sep", 9), ("oct", 10), ("nov", 11), ("dec", 12)]

/-- Case-insensitive prefix test (the month regex is compiled IGNORECASE). -/
def monthPrefix (name : List Char) (s : List Char) : Bool :=
  match name, s with
  | [], _ => true
  | _ :: _, [] => false
  | a :: ns, b :: ss => a == b.toLower && monthPrefix ns ss

/-- Match one month name from a table, returning its number and the rest. -/
def matchMonth : List (String × Nat) → List Char → Option (Nat × List Char)
  | [], _ => Option.none
  | (nm, n) :: t, s =>
      if monthPrefix nm.data s then some (n, s.drop nm.data.length)
      else matchMonth t s

/-- `%d` (also used for `%m` with a different bound): CPython's
`3[01]|[12]\d|0[1-9]|[1-9]` — a two-digit value in `1..hi`, else one
nonzero digit. -/
def matchNum2 (hi : Nat) : List Char → Option (Nat × List Char)
  | c1 :: c2 :: rest =>
      if c1.isDigit && c2.isDigit then
        let v := (c1.toNat - 48) * 10 + (c2.toNat - 48)
        if 1 ≤ v && v ≤ hi then some (v, rest)
        else if '1' ≤ c1 && c1 ≤ '9' then some (c1.toNat - 48, c2 :: rest)
        else Option.none
      else if c1.isDigit && '1' ≤ c1 && c1 ≤ '9' then
        some (c1.toNat - 48, c2 :: rest)
      else Option.none
  | [c1] =>
      if c1.isDigit && '1' ≤ c1 && c1 ≤ '9' then some (c1.toNat - 48, [])
      else Option.none
  | [] => Option.none

/-- Exactly `n` digits. -/
def matchDigits (n : Nat) (s : List Char) : Option (Nat × List Char) :=
  let pre := s.take n
  if pre.length == n && pre.all Char.isDigit then
    some (digitsToNat pre, s.drop n)
  else Option.none

/-- Run a format over the input, recording year/month/day.  The whole input
must be consumed (CPython raises unless the regex match covers it all). -/
def strpRun : List FTok → List Char →
    Option Nat × Option Nat × Option Nat → Option (Option Nat × Option Nat × Option Nat)
  | [], [], acc => some acc
  | [], _ :: _, _ => Option.none
  | t :: ts, s, (y, m, d) =>
      match t with
      | .lit c =>
          match s with
          | c1 :: rest => if c1 == c then strpRun ts rest (y, m, d) else Option.none
          | [] => Option.none
      | .ws =>
          match s with
          | c1 :: rest =>
              if isReWs c1 then strpRun ts (rest.dropWhile isReWs) (y, m, d)
              else Option.none
          | [] => Option.none
      | .D =>
          match matchNum2 31 s with
          | some (v, rest) => strpRun ts rest (y, m, some v)
          | Option.none => Option.none
      | .M =>
          match matchNum2 12 s with
          | some (v, rest) => strpRun ts rest (y, some v, d)
          | Option.none => Option.none
      | .Y4 =>
          match matchDigits 4 s with
          | some (v, rest) => strpRun ts rest (some v, m, d)
          | Option.none => Option.none
      | .Y2 =>
          match matchDigits 2 s with
          | some (v, rest) =>
              strpRun ts rest (some (if v ≤ 68 then 2000 + v else 1900 + v), m, d)
          | Option.none => Option.none
      | .B =>
          match matchMonth monthsFull s with
          | some (v, rest) => strpRun ts rest (y, some v, d)
          | Option.none => Option.none
      | .Bab =>
          match matchMonth monthsAbbr s with
          | some (v, rest) => strpRun ts rest (y, some v, d)
          | Option.none => Option.none

/-- `datetime.strptime(s, fmt).date()`, with CPython defaults
(year 1900, month 1, day 1) and `datetime.date` validation. -/
def strptimeDate (fmt : List FTok) (s : String) : Option PyDate :=
  match strpRun fmt s.data (Option.none, Option.none, Option.none) with
  | some (y, m, d) => mkDate (y.getD 1900) (m.getD 1) (d.getD 1)
  | Option.none => Option.none

/-- The ordered `date_formats` list of `try_parse_date`. -/
def date_formats : List (List FTok) :=
  [ [.D, .lit '/', .M, .lit '/', .Y4], [.D, .lit '-', .M, .lit '-', .Y4],
    [.D, .lit '.', .M, .lit '.', .Y4],
    [.D, .lit '/', .M, .lit '/', .Y2], [.D, .lit '-', .M, .lit '-', .Y2],
    [.D, .lit '.', .M, .lit '.', .Y2],
    [.M, .lit '/', .D, .lit '/', .Y4], [.M, .lit '-', .D, .lit '-', .Y4],
    [.M, .lit '.', .D, .lit '.', .Y4],
    [.M, .lit '/', .D, .lit '/', .Y2], [.M, .lit '-', .D, .lit '-', .Y2],
    [.M, .lit '.', .D, .lit '.', .Y2],
    [.Y4, .lit '/', .M, .lit '/', .D], [.Y4, .lit '-', .M, .lit '-', .D],
    [.Y4, .lit '.', .M, .lit '.', .D],
    [.B, .ws, .D, .lit ',', .ws, .Y4], [.Bab, .ws, .D, .lit ',', .ws, .Y4],
    [.D, .ws, .B, .ws, .Y4], [.D, .ws, .Bab, .ws, .Y4],
    [.B, .ws, .Y4], [.Bab, .ws, .Y4], [.M, .lit '/', .Y4] ]

/-- The sanity window `2020 <= year <= current_year + 5`. -/
def windowOK (cy y : Nat) : Bool :=
  2020 ≤ y && y ≤ cy + 5

/-- The format loop of `try_parse_date`: first format that parses AND lands
in the sanity window wins; otherwise continue with the remaining formats. -/
def tryParseAux (cy : Nat) : List (List FTok) → String → Option PyDate
  | [], _ => Option.none
  | f :: rest, s =>
      match strptimeDate f s with
      | some d => if windowOK cy d.year then some d else tryParseAux cy rest s
      | Option.none => tryParseAux cy rest s

/-- `try_parse_date`, with the clock collaborator's current year explicit. -/
def try_parse_date (cy : Nat) (s : String) : Option PyDate :=
  tryParseAux cy date_formats s

/-- The candidate loop of `parse_expiry_date_from_text`: first candidate (in
match order) that `try_parse_date` accepts. -/
def firstDateIn (cy : Nat) : List String → Option PyDate
  | [] => Option.none
  | c :: t =>
      match try_parse_date cy (pyStrip c) with
      | some d => some d
      | Option.none => firstDateIn cy t

/-- The pattern loop of `parse_expiry_date_from_text`. -/
def parseExpiryAux (cy : Nat) : List RE → String → Option PyDate
  | [], _ => Option.none
  | p :: ps, tl =>
      match firstDateIn cy (findall1 p tl) with
      | some d => some d
      | Option.none => parseExpiryAux cy ps tl

/-- `parse_expiry_date_from_text`. -/
def parse_expiry_date_from_text (cy : Nat) (text : String) : Option PyDate :=
  if text.data.isEmpty then Option.none
  else parseExpiryAux cy expiryPatterns (lowerStr text)

/-! ## Quantity, nutrition, product-info extractors -/

/-- Unit synonym table (`unit_map`). -/
def unitMap : List (String × String) :=
  [("gram", "g"), ("grams", "g"), ("kilogram", "kg"), ("kilograms", "kg"),
   ("milliliter", "ml"), ("milliliters", "ml"), ("liter", "l"), ("liters", "l"),
   ("ounce", "oz"), ("ounces", "oz"), ("pound", "lb"), ("pounds", "lb"),
   ("piece", "pieces"), ("pcs", "pieces"), ("items", "pieces"),
   ("units", "pieces")]

/-- `unit_map.get(unit, unit)`. -/
def normalizeUnit (u : String) : String :=
  match unitMap.find? (fun kv => kv.1 == u) with
  | some kv => kv.2
  | Option.none => u

/-- `(g|kg|ml|l|mg|oz|lb)`. -/
def unitsShort : RE :=
  rAlts [rStr "g", rStr "kg", rStr "ml", rStr "l", rStr "mg", rStr "oz",
    rStr "lb"]

/-- `(g|kg|ml|l)`. -/
def unitsGkml : RE :=
  rAlts [rStr "g", rStr "kg", rStr "ml", rStr "l"]

/-- The ordered `patterns` list of `extract_quantity_and_unit`. -/
def quantityPatterns : List RE :=
  [ rCat [.grp 1 floatNum, .star chS, .grp 2 unitsShort, .wordB],
    rCat [.grp 1 floatNum, .star chS,
      .grp 2 (rAlts [rStr "gram", rStr "kilogram", rStr "milliliter",
        rStr "liter", rStr "pound", rStr "ounce"]), rOpt (rCh 's'), .wordB],
    rCat [.wordB, .grp 1 (rPlus chD), .star chS,
      .grp 2 (rAlts [rStr "pieces", rStr "pcs", rStr "items", rStr "units"]),
      .wordB],
    rCat [rStr "net", rPlus chS, rStr "weight", .star chS, rCh ':', .star chS,
      .grp 1 floatNum, .star chS, .grp 2 unitsGkml, .wordB],
    rCat [.grp 1 floatNum, .star chS, .grp 2 unitsGkml, .star chS, rCh '/'] ]

/-- Pattern loop of `extract_quantity_and_unit`: first match of the first
matching pattern is returned immediately. -/
def quantAux : List RE → String → Option PyNum × Option String
  | [], _ => (Option.none, Option.none)
  | p :: ps, tl =>
      match findall2 p tl with
      | [] => quantAux ps tl
      | m :: _ => (some (strToFloat m.1), some (normalizeUnit m.2))

/-- `extract_quantity_and_unit`. -/
def extract_quantity_and_unit (text : String) : Option PyNum × Option String :=
  if text.data.isEmpty then (Option.none, Option.none)
  else quantAux quantityPatterns (lowerStr text)

/-- `calorie_patterns`. -/
def caloriePatterns : List RE :=
  [ rCat [rStr "calorie", rOpt (rCh 's'), .star chColS, .grp 1 floatNum,
      .star chS, rOpt (rStr "kcal")],
    rCat [rStr "energy", .star chColS, .grp 1 floatNum, .star chS,
      rAlts [rStr "kcal", rStr "kj"]],
    rCat [.grp 1 floatNum, .star chS, rStr "kcal", .star chS, rStr "per",
      .star chS, rStr "100g"] ]

/-- `protein_patterns`. -/
def proteinPatterns : List RE :=
  [ rCat [rStr "protein", .star chColS, .grp 1 floatNum, .star chS, rCh 'g'],
    rCat [.grp 1 floatNum, .star chS, rCh 'g', .star chS, rStr "protein",
      .star chS, rStr "per", .star chS, rStr "100g"] ]

/-- `carbs_patterns`. -/
def carbsPatterns : List RE :=
  [ rCat [rStr "carbohydrate", rOpt (rCh 's'), .star chColS, .grp 1 floatNum,
      .star chS, rCh 'g'],
    rCat [rStr "carbs", .star chColS, .grp 1 floatNum, .star chS, rCh 'g'],
    rCat [.grp 1 floatNum, .star chS, rCh 'g', .star chS, rStr "carbohydrate",
      rOpt (rCh 's'), .star chS, rStr "per", .star chS, rStr "100g"] ]

/-- `fat_patterns`. -/
def fatPatterns : List RE :=
  [ rCat [rStr "fat", .star chColS, .grp 1 floatNum, .star chS, rCh 'g'],
    rCat [.grp 1 floatNum, .star chS, rCh 'g', .star chS, rStr "fat",
      .star chS, rStr "per", .star chS, rStr "100g"] ]

/-- `fiber_patterns`. -/
def fiberPatterns : List RE :=
  [ rCat [rStr "fiber", .star chColS, .grp 1 floatNum, .star chS, rCh 'g'],
    rCat [rStr "fibre", .star chColS, .grp 1 floatNum, .star chS, rCh 'g'],
    rCat [rStr "dietary", rPlus chS, rStr "fiber", .star chColS,
      .grp 1 floatNum, .star chS, rCh 'g'] ]

/-- One nutrient's pattern loop in `extract_nutritional_info`: each
pattern's first match assigns the key (the `break` leaves only the inner
loop, so a later matching pattern overwrites an earlier one). -/
def nutrientFold (ps : List RE) (tl : String) (key : String) (acc : PyDict) :
    PyDict :=
  ps.foldl (fun a p =>
    match findall1 p tl with
    | [] => a
    | m :: _ => dSet a key (.num (strToFloat m))) acc

/-- `extract_nutritional_info`. -/
def extract_nutritional_info (text : String) : PyDict :=
  if text.data.isEmpty then []
  else
    let tl := lowerStr text
    let ni : PyDict := []
    let ni := nutrientFold caloriePatterns tl "calories" ni
    let ni := nutrientFold proteinPatterns tl "protein" ni
    let ni := nutrientFold carbsPatterns tl "carbs" ni
    let ni := nutrientFold fatPatterns tl "fat" ni
    nutrientFold fiberPatterns tl "fiber" ni

/-- `\d{2,}` (used with `re.search` in the product-name heuristic). -/
def digitRun2 : RE := rAtLeast 2 chD

/-- The product-name blacklist prefixes. -/
def nameBlacklist : List String :=
  ["exp", "best", "use", "bb", "mf", "ingredients", "nutrition"]

/-- `line.lower().startswith((...))`. -/
def startsWithBlacklisted (l : String) : Bool :=
  nameBlacklist.any (fun p => pyStartsWith (lowerStr l) p)

/-- The product-name line scan of `extract_product_info_from_text`. -/
def findName : List String → Option String
  | [] => Option.none
  | ln :: rest =>
      let l := pyStrip ln
      if !l.isEmpty && l.length > 2 then
        if !reSearch digitRun2 l && l.length > 10 && !startsWithBlacklisted l
        then some l
        else findName rest
      else findName rest

/-- `barcode_patterns`: `\b\d{8,13}\b` then `[A-Z0-9]{10,15}` (a later
pattern's hit overwrites an earlier one; within a pattern the first match of
length at least 8 wins). -/
def barcodePatterns : List RE :=
  [ rCat [.wordB, rRep 8 13 chD, .wordB], rRep 10 15 chUpD ]

/-- The barcode loop of `extract_product_info_from_text` (runs on the
original, non-lowercased text). -/
def barcodeStep (text : String) (info : PyDict) : PyDict :=
  barcodePatterns.foldl (fun acc p =>
    match (findall0 p text).find? (fun m => m.length ≥ 8) with
    | some m => dSet acc "barcode" (.str m)
    | Option.none => acc) info

/-- `storage_patterns`. -/
def storagePatterns : List RE :=
  [ rCat [rStr "store", .star chColS, .grp 1 (rCat [rPlus chNotDot, rCh '.'])],
    rCat [rStr "storage", .star chColS, .grp 1 (rCat [rPlus chNotDot, rCh '.'])],
    rCat [rStr "keep", .star chColS, .grp 1 (rCat [rPlus chNotDot, rCh '.'])] ]

/-- The quantity half of the quantity/unit block of
`extract_product_info_from_text`: `if quantity:` (Python truthiness of the
float). -/
def quantityStep (text : String) (info : PyDict) : PyDict :=
  match (extract_quantity_and_unit text).1 with
  | some q => if q == 0 then info else dSet info "quantity" (.num q)
  | Option.none => info

/-- The unit half: `if unit:` (Python truthiness of the string). -/
def unitStep (text : String) (info : PyDict) : PyDict :=
  match (extract_quantity_and_unit text).2 with
  | some u => if u.data.isEmpty then info else dSet info "unit" (.str u)
  | Option.none => info

/-- The quantity/unit block of `extract_product_info_from_text`. -/
def quantityUnitStep (text : String) (info : PyDict) : PyDict :=
  unitStep text (quantityStep text info)

/-- The storage-instructions loop of `extract_product_info_from_text`
(again no outer break: a later pattern's hit overwrites an earlier one). -/
def storageStep (text : String) (info : PyDict) : PyDict :=
  storagePatterns.foldl (fun acc p =>
    match findall1 p (lowerStr text) with
    | [] => acc
    | m :: _ => dSet acc "storage_instructions" (.str (pyStrip m))) info

/-- The product-name block of `extract_product_info_from_text`, starting
from the empty `info` dict. -/
def nameStep (text : String) : PyDict :=
  match findName (pySplitNl text) with
  | some l => dSet [] "product_name" (.str l)
  | Option.none => []

/-- `extract_product_info_from_text`: name, barcode, quantity/unit,
nutrition update, storage — in source order. -/
def extract_product_info_from_text (text : String) : PyDict :=
  if text.data.isEmpty then []
  else
    storageStep text
      (dUpdate (quantityUnitStep text (barcodeStep text (nameStep text)))
        (extract_nutritional_info text))

/-! ## `json.loads`, executable model -/

/-- JSON whitespace. -/
def jsonSkipWs (s : List Char) : List Char :=
  s.dropWhile (fun c => c == ' ' || c == '\t' || c == '\n' || c == '\r')

/-- Hex digit value. -/
def hexVal (c : Char) : Option Nat :=
  if c.isDigit then some (c.toNat - 48)
  else if 'a' ≤ c && c ≤ 'f' then some (c.toNat - 87)
  else if 'A' ≤ c && c ≤ 'F' then some (c.toNat - 55)
  else Option.none

/-- JSON string body after the opening quote.  Raw control characters are
rejected (strict mode); `\uXXXX` is accepted for non-surrogate scalars. -/
def jsonString (fuel : Nat) (s : List Char) (acc : List Char) :
    Option (String × List Char) :=
  match fuel with
  | 0 => Option.none
  | fuel + 1 =>
    match s with
    | [] => Option.none
    | '"' :: rest => some (String.mk acc.reverse, rest)
    | '\\' :: e :: rest =>
        match e with
        | '"' => jsonString fuel rest ('"' :: acc)
        | '\\' => jsonString fuel rest ('\\' :: acc)
        | '/' => jsonString fuel rest ('/' :: acc)
        | 'b' => jsonString fuel rest ('\x08' :: acc)
        | 'f' => jsonString fuel rest ('\x0c' :: acc)
        | 'n' => jsonString fuel rest ('\n' :: acc)
        | 'r' => jsonString fuel rest ('\r' :: acc)
        | 't' => jsonString fuel rest ('\t' :: acc)
        | 'u' =>
            match rest with
            | h1 :: h2 :: h3 :: h4 :: rest2 =>
                match hexVal h1, hexVal h2, hexVal h3, hexVal h4 with
                | some a, some b, some c, some d =>
                    let n := ((a * 16 + b) * 16 + c) * 16 + d
                    if n < 0xd800 || 0xe000 ≤ n then
                      jsonString fuel rest2 (Char.ofNat n :: acc)
                    else Option.none
                | _, _, _, _ => Option.none
            | _ => Option.none
        | _ => Option.none
    | c :: rest =>
        if c.toNat < 0x20 then Option.none else jsonString fuel rest (c :: acc)

/-- Signed fraction from numerator/denominator naturals. -/
def mkPyNum (neg : Bool) (n d : Nat) : PyNum :=
  ⟨if neg then -(n : Int) else (n : Int), d⟩

/-- JSON number: `-?(0|[1-9]\d*)(\.\d+)?([eE][+-]?\d+)?`, as an exact
fraction. -/
def jsonNumber (s : List Char) : Option (PyNum × List Char) :=
  let (neg, s1) := match s with
    | '-' :: t => (true, t)
    | _ => (false, s)
  let ip := s1.takeWhile Char.isDigit
  let s2 := s1.dropWhile Char.isDigit
  if ip.isEmpty then Option.none
  else if ip.length > 1 && ip.head? == some '0' then Option.none
  else
    match s2 with
    | '.' :: t =>
        let fd := t.takeWhile Char.isDigit
        if fd.isEmpty then Option.none
        else
          jsonNumTail neg (digitsToNat ip * 10 ^ fd.length + digitsToNat fd)
            (10 ^ fd.length) (t.dropWhile Char.isDigit)
    | _ => jsonNumTail neg (digitsToNat ip) 1 s2
where
  /-- Optional exponent suffix. -/
  jsonNumTail (neg : Bool) (n d : Nat) (s : List Char) :
      Option (PyNum × List Char) :=
    match s with
    | 'e' :: t => jsonExp neg n d t
    | 'E' :: t => jsonExp neg n d t
    | _ => some (mkPyNum neg n d, s)
  /-- Exponent digits. -/
  jsonExp (neg : Bool) (n d : Nat) (t : List Char) :
      Option (PyNum × List Char) :=
    let (eneg, t1) := match t with
      | '-' :: u => (true, u)
      | '+' :: u => (false, u)
      | _ => (false, t)
    let ed := t1.takeWhile Char.isDigit
    if ed.isEmpty then Option.none
    else
      let e := digitsToNat ed
      if eneg then some (mkPyNum neg n (d * 10 ^ e), t1.dropWhile Char.isDigit)
      else some (mkPyNum neg (n * 10 ^ e) d, t1.dropWhile Char.isDigit)

mutual

/-- One JSON value. -/
def jsonValue : Nat → List Char → Option (PyVal × List Char)
  | 0, _ => Option.none
  | fuel + 1, s =>
    match s with
    | 'n' :: 'u' :: 'l' :: 'l' :: rest => some (.none, rest)
    | 't' :: 'r' :: 'u' :: 'e' :: rest => some (.boolean true, rest)
    | 'f' :: 'a' :: 'l' :: 's' :: 'e' :: rest => some (.boolean false, rest)
    | '"' :: rest =>
        match jsonString (rest.length + 1) rest [] with
        | some (str, rest2) => some (.str str, rest2)
        | Option.none => Option.none
    | '\x7b' :: rest =>
        match jsonSkipWs rest with
        | '\x7d' :: rest2 => some (.dict [], rest2)
        | s2 =>
            match jsonMembers fuel s2 [] with
            | some (d, rest2) => some (.dict d, rest2)
            | Option.none => Option.none
    | '[' :: rest =>
        match jsonSkipWs rest with
        | ']' :: rest2 => some (.listv [], rest2)
        | s2 =>
            match jsonElems fuel s2 [] with
            | some (l, rest2) => some (.listv l.reverse, rest2)
            | Option.none => Option.none
    | _ =>
        match jsonNumber s with
        | some (q, rest) => some (.num q, rest)
        | Option.none => Option.none

/-- Object members, starting at a key; duplicate keys: last wins. -/
def jsonMembers : Nat → List Char → PyDict → Option (PyDict × List Char)
  | 0, _, _ => Option.none
  | fuel + 1, s, acc =>
    match s with
    | '"' :: rest =>
        match jsonString (rest.length + 1) rest [] with
        | some (key, rest2) =>
            match jsonSkipWs rest2 with
            | ':' :: rest3 =>
                match jsonValue fuel (jsonSkipWs rest3) with
                | some (v, rest4) =>
                    let acc2 := dSet acc key v
                    match jsonSkipWs rest4 with
                    | ',' :: rest5 => jsonMembers fuel (jsonSkipWs rest5) acc2
                    | '\x7d' :: rest5 => some (acc2, rest5)
                    | _ => Option.none
                | Option.none => Option.none
            | _ => Option.none
        | Option.none => Option.none
    | _ => Option.none

/-- Array elements (accumulated in reverse). -/
def jsonElems : Nat → List Char → List PyVal → Option (List PyVal × List Char)
  | 0, _, _ => Option.none
  | fuel + 1, s, acc =>
    match jsonValue fuel s with
    | some (v, rest) =>
        match jsonSkipWs rest with
        | ',' :: rest2 => jsonElems fuel (jsonSkipWs rest2) (v :: acc)
        | ']' :: rest2 => some (v :: acc, rest2)
        | _ => Option.none
    | Option.none => Option.none

end

/-- `json.loads`: parse one value with nothing but whitespace around it. -/
def jsonLoads (s : String) : Option PyVal :=
  match jsonValue (s.length + 10) (jsonSkipWs s.data) with
  | some (v, rest) => if (jsonSkipWs rest).isEmpty then some v else Option.none
  | Option.none => Option.none

/-! ## Vision Response Normalizer and Multi-Source Merge Engine -/

/-- Behaviour of the external vision collaborator for one image: the call
either raises (network/quota/timeout) or returns the response content. -/
inductive VisionOut where
  | raises
  | returns (content : String)

/-- `extract_text_from_image`: on a raise, the broad handler returns `None`
("no data"); otherwise the stripped response is parsed as JSON, and a
`JSONDecodeError` falls back to `{"detected_text": raw}` (the code's "Raw AI
response" is the stripped content). -/
def extract_text_from_image : VisionOut → Option PyVal
  | .raises => Option.none
  | .returns content =>
      let extracted_text := pyStrip content
      match jsonLoads extracted_text with
      | some v => some v
      | Option.none => some (.dict [("detected_text", .str extracted_text)])

/-- The five nutrition keys copied from structured responses. -/
def nutritional_fields : List String :=
  ["calories", "protein", "carbs", "fat", "fiber"]

/-- One structured-field copy in the product-image pass:
`if ai_data.get(f) and ai_data[f] != 'null': extracted_data[f] = ai_data[f]`. -/
def copyStructured (d : PyDict) (key : String) (ed : PyDict) : PyDict :=
  if pyTruthy (dGet d key) && !pyEq (dGet d key) (.str "null") then
    dSet ed key (dGet d key)
  else ed

/-- The final fallback loop of the product-image pass:
`if key not in extracted_data or not extracted_data[key]`. -/
def fillAbsent (ed : PyDict) (info : PyDict) : PyDict :=
  info.foldl (fun e kv =>
    if !dHas e kv.1 || !pyTruthy (dGet e kv.1) then dSet e kv.1 kv.2 else e) ed

/-- The expiry-extraction block shared by both passes:
`if ai_data.get('expiry_date'): ... elif ai_data.get('detected_text'): ...`.
An `.error` result models an exception reaching the outer handler (a truthy
non-string `detected_text` would raise inside `parse_expiry_date_from_text`). -/
def expiryBlock (cy : Nat) (d : PyDict) (ed : PyDict) : Except PyDict PyDict :=
  if pyTruthy (dGet d "expiry_date") then
    .ok (dSet ed "expiry_date" (dGet d "expiry_date"))
  else if pyTruthy (dGet d "detected_text") then
    match dGet d "detected_text" with
    | .str s =>
        match parse_expiry_date_from_text cy s with
        | some dt => .ok (dSet ed "expiry_date" (.date dt))
        | Option.none => .ok ed
    | _ => .error ed
  else .ok ed

/-- The expiry-label-image pass (lines 335-350): expiry block, then
`extracted_data.update(extract_product_info_from_text(detected_text))`.
`.error` carries the accumulator at the point an exception escapes to the
function's outer handler (`.get` on a non-dict response, or a non-string
`detected_text`). -/
def runLabelPass (cy : Nat) (img : Option VisionOut) (ed : PyDict) :
    Except PyDict PyDict :=
  match img with
  | Option.none => .ok ed
  | some im =>
      match extract_text_from_image im with
      | Option.none => .ok ed
      | some ai =>
          if pyTruthy ai then
            match ai with
            | .dict d =>
                match expiryBlock cy d ed with
                | .error e => .error e
                | .ok ed1 =>
                    if pyTruthy (dGet d "detected_text") then
                      match dGet d "detected_text" with
                      | .str s =>
                          .ok (dUpdate ed1 (extract_product_info_from_text s))
                      | _ => .error ed1
                    else .ok ed1
            | _ => .error ed
          else .ok ed

/-- The product-image pass (lines 353-394): expiry only if the key is still
absent, then the guarded structured-field copies, then the fill-if-absent
text fallback. -/
def runProductPass (cy : Nat) (img : Option VisionOut) (ed : PyDict) :
    Except PyDict PyDict :=
  match img with
  | Option.none => .ok ed
  | some im =>
      match extract_text_from_image im with
      | Option.none => .ok ed
      | some ai =>
          if pyTruthy ai then
            match ai with
            | .dict d =>
                match (if !dHas ed "expiry_date" then expiryBlock cy d ed
                       else .ok ed) with
                | .error e => .error e
                | .ok ed1 =>
                    let ed2 := copyStructured d "product_name" ed1
                    let ed2 := copyStructured d "barcode" ed2
                    let ed2 := copyStructured d "quantity" ed2
                    let ed2 := copyStructured d "unit" ed2
                    let ed2 := nutritional_fields.foldl
                      (fun e f => copyStructured d f e) ed2
                    let ed2 := copyStructured d "storage_instructions" ed2
                    if pyTruthy (dGet d "detected_text") then
                      match dGet d "detected_text" with
                      | .str s =>
                          .ok (fillAbsent ed2 (extract_product_info_from_text s))
                      | _ => .error ed2
                    else .ok ed2
            | _ => .error ed
          else .ok ed

/-- Collapse the try/except: the function returns the (in-place mutated)
`extracted_data` whether or not an exception was caught. -/
def exceptVal : Except PyDict PyDict → PyDict
  | .ok e => e
  | .error e => e

/-- `process_pantry_item_images`: label pass first (an exception there skips
the product pass), then product pass. -/
def process_pantry_item_images (cy : Nat)
    (product_image expiry_label_image : Option VisionOut)
    (current_data : Option PyDict) : PyDict :=
  let extracted_data := current_data.getD []
  match runLabelPass cy expiry_label_image extracted_data with
  | .error e => e
  | .ok ed1 => exceptVal (runProductPass cy product_image ed1)

/-! ## Item Enrichment Applier (`enhance_pantry_item_with_ai`) -/

/-- The pantry-item instance as the enrichment applier sees it.  Images are
represented by the vision collaborator's behaviour for them; data fields are
Python values (the code can store strings, numbers or dates in them). -/
structure PantryItemE where
  expiry_label_image : Option VisionOut
  product_image : Option VisionOut
  name : PyVal
  expiry_date : PyVal
  barcode : PyVal
  calories : PyVal
  protein : PyVal
  carbs : PyVal
  fat : PyVal
  fiber : PyVal
  quantity : PyVal
  unit : PyVal
  storage_instructions : PyVal

/-- The extraction phase of `enhance_pantry_item_with_ai` (lines 412-427):
label image first, product image only when no expiry date was extracted. -/
def extractedOf (cy : Nat) (item : PantryItemE) : PyDict :=
  let ex : PyDict := []
  let ex :=
    match item.expiry_label_image with
    | some img =>
        dUpdate ex (process_pantry_item_images cy Option.none (some img) Option.none)
    | Option.none => ex
  match item.product_image with
  | some img =>
      if pyTruthy (dGet ex "expiry_date") then ex
      else dUpdate ex (process_pantry_item_images cy (some img) Option.none Option.none)
  | Option.none => ex

/-- One conditional field fill:
`if extracted_data.get(key) and cond(current): field := value; updated = True`. -/
def stepFill (v : PyVal) (cond : PyVal → Bool) (get : PantryItemE → PyVal)
    (set : PantryItemE → PyVal → PantryItemE) (s : PantryItemE × Bool) :
    PantryItemE × Bool :=
  if pyTruthy v && cond (get s.1) then (set s.1 v, true) else s

/-- "Currently unset" for nullable/text fields: Python `not current`. -/
def condFalsy (old : PyVal) : Bool := !pyTruthy old

/-- "Currently at the zero sentinel": Python `current == 0`. -/
def condZero (old : PyVal) : Bool := pyEq old (.num 0)

/-- "Currently at the default sentinel": Python `current == 1.0`. -/
def condOne (old : PyVal) : Bool := pyEq old (.num 1)

/-- The update phase of `enhance_pantry_item_with_ai` (lines 429-466), in
source order; the returned boolean is `updated` (and a save happens iff it
is true). -/
def applyExtracted (ex : PyDict) (item : PantryItemE) : PantryItemE × Bool :=
  let s := (item, false)
  let s := stepFill (dGet ex "expiry_date") condFalsy (·.expiry_date)
    (fun it v => { it with expiry_date := v }) s
  let s := stepFill (dGet ex "product_name") condFalsy (·.name)
    (fun it v => { it with name := v }) s
  let s := stepFill (dGet ex "barcode") condFalsy (·.barcode)
    (fun it v => { it with barcode := v }) s
  let s := stepFill (dGet ex "calories") condZero (·.calories)
    (fun it v => { it with calories := v }) s
  let s := stepFill (dGet ex "protein") condZero (·.protein)
    (fun it v => { it with protein := v }) s
  let s := stepFill (dGet ex "carbs") condZero (·.carbs)
    (fun it v => { it with carbs := v }) s
  let s := stepFill (dGet ex "fat") condZero (·.fat)
    (fun it v => { it with fat := v }) s
  let s := stepFill (dGet ex "fiber") condZero (·.fiber)
    (fun it v => { it with fiber := v }) s
  let s := stepFill (dGet ex "quantity") condOne (·.quantity)
    (fun it v => { it with quantity := v }) s
  let s := stepFill (dGet ex "unit") condFalsy (·.unit)
    (fun it v => { it with unit := v }) s
  stepFill (dGet ex "storage_instructions") condFalsy (·.storage_instructions)
    (fun it v => { it with storage_instructions := v }) s

/-- `enhance_pantry_item_with_ai`: extract from the item's images, then
fill unset fields; returns the updated instance and whether it was saved. -/
def enhance_pantry_item_with_ai (cy : Nat) (item : PantryItemE) :
    PantryItemE × Bool :=
  applyExtracted (extractedOf cy item) item

/-! ## Expiry Sweep (`detect_and_process_all_expired_items`) -/

/-- Modelled from the spec: the persistent `UserPantry` row as the sweep
reads it (the `core/models.py` module itself is not in the provided
sources; fields and defaults follow §3 of the spec and the sweep's own
reads). -/
structure UserPantry where
  id : Nat
  user : Nat
  name : String
  status : String
  expiry_date : Option PyDate
  quantity : Rat
  unit : String
  price : Option Rat
  purchase_date : Option PyDate
deriving DecidableEq

/-- Modelled from the spec: the append-only `FoodWasteRecord` ledger row
(§3 of the spec; `core/models.py` is not in the provided sources). -/
structure FoodWasteRecord where
  user : Nat
  pantry_item : Nat
  original_quantity : Rat
  quantity_wasted : Rat
  unit : String
  cost : Rat
  reason : String
  reason_details : String
  purchase_date : Option PyDate
  expiry_date : Option PyDate
  waste_date : PyDate
deriving DecidableEq

/-- The persistent state the sweep touches. -/
structure PantryState where
  items : List UserPantry
  waste : List FoodWasteRecord
deriving DecidableEq

/-- Modelled from the spec: `UserPantry.mark_as_expired` (not in the
provided sources) performs the `active` → `expired` transition and, per the
sweep's comment, does not change the quantity. -/
def mark_as_expired (it : UserPantry) : UserPantry :=
  { it with status := "expired" }

/-- The queryset filter of the sweep:
`user=user, status='active', expiry_date__lt=today, quantity__gt=0`
(a NULL `expiry_date` never satisfies `__lt`). -/
def sweepSelects (user : Nat) (today : PyDate) (it : UserPantry) : Bool :=
  it.user == user && it.status == "active" &&
    (match it.expiry_date with
     | some d => dateLt d today
     | Option.none => false) &&
    decide (0 < it.quantity)

/-- The waste record created for one expired item. -/
def wasteRecordFor (user : Nat) (today : PyDate) (item : UserPantry) :
    FoodWasteRecord :=
  { user := user
    pantry_item := item.id
    original_quantity := item.quantity
    quantity_wasted := item.quantity
    unit := item.unit
    cost := match item.price with
      | some p => if p == 0 then 0 else p
      | Option.none => 0
    reason := "expired"
    reason_details := "Item expired on " ++
      (match item.expiry_date with
       | some d => dateIso d
       | Option.none => "None")
    purchase_date := item.purchase_date
    expiry_date := item.expiry_date
    waste_date := today }

/-- The per-item transaction body: existence check on
(pantry_item, reason='expired', waste_date=today), conditional ledger
insert, then `mark_as_expired`, then count. -/
def processExpiredItem (user : Nat) (today : PyDate)
    (st : PantryState × Nat) (item : UserPantry) : PantryState × Nat :=
  let s := st.1
  let existing_waste_record := s.waste.any fun r =>
    r.pantry_item == item.id && r.reason == "expired" && r.waste_date == today
  let waste1 :=
    if existing_waste_record then s.waste
    else s.waste ++ [wasteRecordFor user today item]
  let items1 := s.items.map fun it =>
    if it.id == item.id then mark_as_expired it else it
  (⟨items1, waste1⟩, st.2 + 1)

/-- `detect_and_process_all_expired_items`: snapshot the matching items,
process each, return the count of newly expired items. -/
def detect_and_process_all_expired_items (user : Nat) (today : PyDate)
    (s : PantryState) : PantryState × Nat :=
  let expired_items := s.items.filter (sweepSelects user today)
  expired_items.foldl (processExpiredItem user today) (s, 0)

/-! ## General lemmas -/

theorem dateLt_irrefl (d : PyDate) : dateLt d d = false := by
  simp [dateLt]

/-- Elements of `dSet d k v` have key `k` or come from `d`. -/
theorem mem_dSet (d : PyDict) (k : String) (v : PyVal) :
    ∀ kv ∈ dSet d k v, kv.1 = k ∨ kv ∈ d := by
  induction d with
  | nil => simp [dSet]
  | cons hd t ih =>
      intro kv hkv
      by_cases hk : hd.1 = k
      · simp [dSet, hk] at hkv
        rcases hkv with h | h
        · left; rw [h]
        · right; exact List.mem_cons_of_mem hd h
      · simp [dSet, hk] at hkv
        rcases hkv with h | h
        · right; simp [h]
        · rcases ih kv h with h2 | h2
          · left; exact h2
          · right; exact List.mem_cons_of_mem hd h2

/-- A truthy value never compares `== 0`. -/
theorem truthy_not_zero (v : PyVal) (h : pyTruthy v = true) :
    pyEq v (.num 0) = false := by
  cases v with
  | num q =>
      simp only [pyTruthy, Bool.not_eq_eq_eq_not, Bool.not_true] at h
      simpa [pyEq] using h
  | boolean b =>
      simp only [pyTruthy] at h
      subst h
      decide
  | none => rfl
  | str s => rfl
  | date d => rfl
  | dict e => rfl
  | listv l => rfl


/-! ## Claim C7: sweep scope -/

/-- Claim C7: the expiry sweep selects exactly the items with status
`active`, quantity > 0, and expiry_date strictly before today; an item whose
expiry_date equals today is not swept, and an item with quantity 0 is not
swept regardless of its expiry_date. -/
theorem claim_C7_sweep_scope (u : Nat) (t : PyDate) (it : UserPantry) :
    (sweepSelects u t it = true ↔
      it.user = u ∧ it.status = "active" ∧ 0 < it.quantity ∧
        ∃ d, it.expiry_date = some d ∧ dateLt d t = true) ∧
    (it.expiry_date = some t → sweepSelects u t it = false) ∧
    (it.quantity = 0 → sweepSelects u t it = false) := by
  refine ⟨?_, ?_, ?_⟩
  · cases hde : it.expiry_date with
    | none => simp [sweepSelects, hde]
    | some d =>
        simp only [sweepSelects, hde, Bool.and_eq_true, beq_iff_eq,
          decide_eq_true_eq]
        constructor
        · rintro ⟨⟨⟨h1, h2⟩, h3⟩, h4⟩
          exact ⟨h1, h2, h4, d, rfl, h3⟩
        · rintro ⟨h1, h2, h4, d2, hd2, h3⟩
          injection hd2 with hd2
          subst hd2
          exact ⟨⟨⟨h1, h2⟩, h3⟩, h4⟩
  · intro h
    simp [sweepSelects, h, dateLt_irrefl]
  · intro h
    simp [sweepSelects, h]

/-- Witness for C7 at concrete inputs. -/
theorem claim_C7_sweep_scope_witness :
    sweepSelects 1 ⟨2025, 10, 12⟩
      { id := 1, user := 1, name := "Milk", status := "active",
        expiry_date := some ⟨2025, 10, 12⟩, quantity := 2, unit := "l",
        price := Option.none, purchase_date := Option.none } = false ∧
    sweepSelects 1 ⟨2025, 10, 12⟩
      { id := 2, user := 1, name := "Eggs", status := "active",
        expiry_date := some ⟨2020, 1, 1⟩, quantity := 0, unit := "pcs",
        price := Option.none, purchase_date := Option.none } = false :=
  ⟨(claim_C7_sweep_scope 1 ⟨2025, 10, 12⟩ _).2.1 rfl,
   (claim_C7_sweep_scope 1 ⟨2025, 10, 12⟩ _).2.2 rfl⟩

/-! ## Claim C8: date sanity window -/

/-- The format loop only ever returns a date inside the sanity window. -/
theorem tryParseAux_window (cy : Nat) (fs : List (List FTok)) (s : String) :
    ∀ d, tryParseAux cy fs s = some d → windowOK cy d.year = true := by
  induction fs with
  | nil => simp [tryParseAux]
  | cons f rest ih =>
      intro d h
      cases hp : strptimeDate f s with
      | none =>
          simp only [tryParseAux, hp] at h
          exact ih d h
      | some d0 =>
          simp only [tryParseAux, hp] at h
          by_cases hw : windowOK cy d0.year = true
          · rw [if_pos hw] at h
            injection h with h
            subst h
            exact hw
          · rw [if_neg hw] at h
            exact ih d h

/-- Claim C8: a date returned by `try_parse_date` always has
2020 ≤ year ≤ current_year + 5, and a format whose parse lands outside the
window contributes nothing — the loop continues with the remaining
formats. -/
theorem claim_C8_date_sanity_window (cy : Nat) (s : String) :
    (∀ d, try_parse_date cy s = some d →
      2020 ≤ d.year ∧ d.year ≤ cy + 5) ∧
    (∀ f rest d, strptimeDate f s = some d → windowOK cy d.year = false →
      tryParseAux cy (f :: rest) s = tryParseAux cy rest s) := by
  constructor
  · intro d h
    have hw := tryParseAux_window cy date_formats s d h
    simpa [windowOK] using hw
  · intro f rest d hp hw
    simp [tryParseAux, hp, hw]

/-- Witness for C8: "31/12/2024" parses day-first into the window;
"01/01/2019" parses under the first format but is rejected by the window, so
the loop falls through to the remaining formats. -/
theorem claim_C8_date_sanity_window_witness :
    (2020 ≤ (2024 : Nat) ∧ (2024 : Nat) ≤ 2025 + 5) ∧
    tryParseAux 2025 date_formats "01/01/2019" =
      tryParseAux 2025 date_formats.tail "01/01/2019" :=
  ⟨by
    have h := (claim_C8_date_sanity_window 2025 "31/12/2024").1
      ⟨2024, 12, 31⟩ (by rfl)
    exact h,
   (claim_C8_date_sanity_window 2025 "01/01/2019").2
     [.D, .lit '/', .M, .lit '/', .Y4] date_formats.tail ⟨2019, 1, 1⟩
     (by rfl) (by rfl)⟩

/-! ## Claim C9: vision failures contained -/

/-- Claim C9: `extract_text_from_image` never propagates a collaborator
exception — a raising call yields `None` — and a response that is not valid
JSON yields a record whose only field is `detected_text` holding the raw
response text. -/
theorem claim_C9_vision_failure_contained (o : VisionOut) :
    (o = .raises → extract_text_from_image o = Option.none) ∧
    (∀ t, o = .returns t → jsonLoads (pyStrip t) = Option.none →
      extract_text_from_image o =
        some (.dict [("detected_text", .str (pyStrip t))])) := by
  constructor
  · intro h
    subst h
    rfl
  · intro t h hjson
    subst h
    simp [extract_text_from_image, hjson]

/-- Witness for C9: a raising call and the non-JSON response "hello". -/
theorem claim_C9_vision_failure_contained_witness :
    extract_text_from_image .raises = Option.none ∧
    extract_text_from_image (.returns "hello") =
      some (.dict [("detected_text", .str (pyStrip "hello"))]) :=
  ⟨(claim_C9_vision_failure_contained .raises).1 rfl,
   (claim_C9_vision_failure_contained (.returns "hello")).2 "hello" rfl (by rfl)⟩

/-! ## Claim C3: the null token and `expiry_date` -/

/-- Claim C3 (failing input): a structured label response with
`"expiry_date": "null"` is copied verbatim — the merged record contains the
literal string "null" for expiry_date, because lines 340-341 (unlike the six
guarded product-pass fields) never compare the value against the null
token. -/
theorem claim_C3_null_token_copied :
    dGet (process_pantry_item_images 2025 Option.none
        (some (.returns "\x7b\"expiry_date\": \"null\"\x7d")) Option.none)
      "expiry_date" = .str "null" := by
  rfl

/-! ## Claim C1: sweep idempotence -/

/-- Claim C1: for a user whose single pantry item is active, has positive
quantity and expired strictly before today, and whose ledger has no
`expired` record for (item, today) yet, one sweep creates exactly one such
waste record, transitions the item to `expired`, and returns count 1; the
second sweep on the same day selects nothing, changes nothing and returns
0. -/
theorem claim_C1_sweep_idempotent (u : Nat) (today : PyDate) (i : UserPantry)
    (w0 : List FoodWasteRecord) (s1 : PantryState) (n1 : Nat)
    (hu : i.user = u) (hact : i.status = "active") (hq : 0 < i.quantity)
    (hd : ∃ d, i.expiry_date = some d ∧ dateLt d today = true)
    (hw : ∀ r ∈ w0,
      (r.pantry_item == i.id && r.reason == "expired" &&
        r.waste_date == today) = false)
    (h1 : detect_and_process_all_expired_items u today ⟨[i], w0⟩ = (s1, n1)) :
    (s1.waste.filter (fun r =>
        r.pantry_item == i.id && r.reason == "expired" &&
          r.waste_date == today)).length = 1 ∧
    s1.items = [mark_as_expired i] ∧ n1 = 1 ∧
    s1.items.filter (sweepSelects u today) = [] ∧
    detect_and_process_all_expired_items u today s1 = (s1, 0) := by
  have hsel : sweepSelects u today i = true := by
    obtain ⟨d, hd1, hd2⟩ := hd
    simp [sweepSelects, hu, hact, hd1, hd2, hq]
  have hex : (w0.any fun r =>
      r.pantry_item == i.id && r.reason == "expired" &&
        r.waste_date == today) = false := by
    rw [List.any_eq_false]
    intro r hr
    simp [hw r hr]
  have hrun : detect_and_process_all_expired_items u today ⟨[i], w0⟩ =
      (⟨[mark_as_expired i], w0 ++ [wasteRecordFor u today i]⟩, 1) := by
    simp [detect_and_process_all_expired_items, List.filter, hsel,
      processExpiredItem, hex]
  rw [hrun] at h1
  injection h1 with hs hn
  subst hs
  have hnot : sweepSelects u today (mark_as_expired i) = false := by
    simp [sweepSelects, mark_as_expired]
  refine ⟨?_, rfl, hn.symm, ?_, ?_⟩
  · rw [List.filter_append]
    have hw0 : w0.filter (fun r =>
        r.pantry_item == i.id && r.reason == "expired" &&
          r.waste_date == today) = [] := by
      rw [List.filter_eq_nil_iff]
      intro r hr
      simp [hw r hr]
    rw [hw0]
    simp [wasteRecordFor]
  · simp [List.filter, hnot]
  · simp [detect_and_process_all_expired_items, List.filter, hnot]

/-- Witness for C1: the spec's scenario — one active item, quantity 2,
expired yesterday, empty ledger. -/
theorem claim_C1_sweep_idempotent_witness :
    let i : UserPantry :=
      { id := 7, user := 1, name := "Milk", status := "active",
        expiry_date := some ⟨2025, 10, 11⟩, quantity := 2, unit := "l",
        price := some 3, purchase_date := some ⟨2025, 10, 1⟩ }
    let r1 := detect_and_process_all_expired_items 1 ⟨2025, 10, 12⟩ ⟨[i], []⟩
    (r1.1.waste.filter (fun r =>
        r.pantry_item == i.id && r.reason == "expired" &&
          r.waste_date == (⟨2025, 10, 12⟩ : PyDate))).length = 1 ∧
    r1.1.items = [mark_as_expired i] ∧ r1.2 = 1 ∧
    r1.1.items.filter (sweepSelects 1 ⟨2025, 10, 12⟩) = [] ∧
    detect_and_process_all_expired_items 1 ⟨2025, 10, 12⟩ r1.1 = (r1.1, 0) :=
  claim_C1_sweep_idempotent 1 ⟨2025, 10, 12⟩ _ [] _ _ rfl rfl (by norm_num)
    ⟨⟨2025, 10, 11⟩, rfl, by decide⟩ (by simp) rfl

/-! ## Fold lemmas for the extractor dictionaries -/

/-- A fold whose every step only sets `key` preserves membership keys. -/
theorem mem_foldl_keyed {α : Type} (key : String) (step : PyDict → α → PyDict)
    (hstep : ∀ acc a kv, kv ∈ step acc a → kv.1 = key ∨ kv ∈ acc) :
    ∀ (l : List α) (acc : PyDict) kv, kv ∈ l.foldl step acc →
      kv.1 = key ∨ kv ∈ acc := by
  intro l
  induction l with
  | nil => intro acc kv h; right; simpa using h
  | cons a t ih =>
      intro acc kv h
      rcases ih (step acc a) kv (by simpa using h) with h2 | h2
      · left; exact h2
      · exact hstep acc a kv h2

/-- A fold whose every step only sets `key` preserves other lookups. -/
theorem dLookup_foldl_keyed {α : Type} (key : String)
    (step : PyDict → α → PyDict)
    (hstep : ∀ acc a k2, k2 ≠ key → dLookup (step acc a) k2 = dLookup acc k2) :
    ∀ (l : List α) (acc : PyDict) (k2 : String), k2 ≠ key →
      dLookup (l.foldl step acc) k2 = dLookup acc k2 := by
  intro l
  induction l with
  | nil => intro acc k2 _; rfl
  | cons a t ih =>
      intro acc k2 h
      calc dLookup ((a :: t).foldl step acc) k2
          = dLookup (t.foldl step (step acc a)) k2 := by
            simp [List.foldl_cons]
        _ = dLookup (step acc a) k2 := ih (step acc a) k2 h
        _ = dLookup acc k2 := hstep acc a k2 h

/-- Keys appearing in `extract_nutritional_info` output are nutrition keys. -/
theorem mem_extract_nutritional_info (t : String) :
    ∀ kv ∈ extract_nutritional_info t, kv.1 ∈ nutritional_fields := by
  intro kv h
  unfold extract_nutritional_info at h
  by_cases ht : t.data.isEmpty
  · rw [if_pos ht] at h; simp at h
  · rw [if_neg ht] at h
    have hstep : ∀ (key : String) (ps : List RE) (tl : String) (acc : PyDict),
        ∀ kv2 ∈ nutrientFold ps tl key acc, kv2.1 = key ∨ kv2 ∈ acc := by
      intro key ps tl acc kv2 h2
      exact mem_foldl_keyed key _
        (by
          intro acc2 p kv3 h3
          cases hf : findall1 p tl with
          | nil => rw [hf] at h3; right; exact h3
          | cons m ms =>
              rw [hf] at h3
              exact mem_dSet acc2 key _ kv3 h3) ps acc kv2 h2
    rcases hstep "fiber" _ _ _ kv h with h1 | h1
    · simp [nutritional_fields, h1]
    rcases hstep "fat" _ _ _ kv h1 with h2 | h2
    · simp [nutritional_fields, h2]
    rcases hstep "carbs" _ _ _ kv h2 with h3 | h3
    · simp [nutritional_fields, h3]
    rcases hstep "protein" _ _ _ kv h3 with h4 | h4
    · simp [nutritional_fields, h4]
    rcases hstep "calories" _ _ _ kv h4 with h5 | h5
    · simp [nutritional_fields, h5]
    · simp at h5

/-- `dUpdate` only contributes keys of the second dict. -/
theorem mem_dUpdate (d d2 : PyDict) :
    ∀ kv ∈ dUpdate d d2, kv ∈ d ∨ ∃ kv2 ∈ d2, kv.1 = kv2.1 := by
  induction d2 generalizing d with
  | nil => intro kv h; left; simpa [dUpdate] using h
  | cons hd t ih =>
      intro kv h
      have heq : dUpdate d (hd :: t) = dUpdate (dSet d hd.1 hd.2) t := by
        simp [dUpdate]
      rw [heq] at h
      rcases ih (dSet d hd.1 hd.2) kv h with h2 | h2
      · rcases mem_dSet d hd.1 hd.2 kv h2 with h3 | h3
        · right; exact ⟨hd, List.mem_cons_self _ _, h3⟩
        · left; exact h3
      · right
        obtain ⟨kv2, hm, he⟩ := h2
        exact ⟨kv2, List.mem_cons_of_mem _ hm, he⟩

/-- Keys contributed by `barcodeStep`. -/
theorem mem_barcodeStep (t : String) (info : PyDict) :
    ∀ kv ∈ barcodeStep t info, kv.1 = "barcode" ∨ kv ∈ info := by
  intro kv h
  refine mem_foldl_keyed "barcode" _ ?_ barcodePatterns info kv h
  intro acc p kv2 h2
  split at h2
  · exact mem_dSet acc "barcode" _ kv2 h2
  · right; exact h2

/-- Keys contributed by `quantityStep`. -/
theorem mem_quantityStep (t : String) (info : PyDict) :
    ∀ kv ∈ quantityStep t info, kv.1 = "quantity" ∨ kv ∈ info := by
  intro kv h
  unfold quantityStep at h
  split at h
  · split at h
    · right; exact h
    · exact mem_dSet info "quantity" _ kv h
  · right; exact h

/-- Keys contributed by `unitStep`. -/
theorem mem_unitStep (t : String) (info : PyDict) :
    ∀ kv ∈ unitStep t info, kv.1 = "unit" ∨ kv ∈ info := by
  intro kv h
  unfold unitStep at h
  split at h
  · split at h
    · right; exact h
    · exact mem_dSet info "unit" _ kv h
  · right; exact h

/-- Keys contributed by `quantityUnitStep`. -/
theorem mem_quantityUnitStep (t : String) (info : PyDict) :
    ∀ kv ∈ quantityUnitStep t info,
      kv.1 = "quantity" ∨ kv.1 = "unit" ∨ kv ∈ info := by
  intro kv h
  rcases mem_unitStep t _ kv h with h2 | h2
  · right; left; exact h2
  rcases mem_quantityStep t info kv h2 with h3 | h3
  · left; exact h3
  · right; right; exact h3

/-- Keys contributed by `storageStep`. -/
theorem mem_storageStep (t : String) (info : PyDict) :
    ∀ kv ∈ storageStep t info, kv.1 = "storage_instructions" ∨ kv ∈ info := by
  intro kv h
  refine mem_foldl_keyed "storage_instructions" _ ?_ storagePatterns info kv h
  intro acc p kv2 h2
  split at h2
  · right; exact h2
  · exact mem_dSet acc "storage_instructions" _ kv2 h2

/-- Every key of an `extract_product_info_from_text` record comes from its
fixed key set; in particular `expiry_date` is never produced. -/
theorem mem_extract_product_info (s : String) :
    ∀ kv ∈ extract_product_info_from_text s,
      kv.1 ∈ ["product_name", "barcode", "quantity", "unit", "calories",
        "protein", "carbs", "fat", "fiber", "storage_instructions"] := by
  intro kv h
  unfold extract_product_info_from_text at h
  by_cases hs : s.data.isEmpty
  · rw [if_pos hs] at h; simp at h
  · rw [if_neg hs] at h
    rcases mem_storageStep s _ kv h with h1 | h1
    · simp [h1]
    rcases mem_dUpdate _ _ kv h1 with h2 | h2
    · rcases mem_quantityUnitStep s _ kv h2 with h3 | h3 | h3
      · simp [h3]
      · simp [h3]
      rcases mem_barcodeStep s _ kv h3 with h4 | h4
      · simp [h4]
      · unfold nameStep at h4
        revert h4
        split
        · intro h5
          rcases mem_dSet [] "product_name" _ kv h5 with h6 | h6
          · simp [h6]
          · simp at h6
        · intro h5; simp at h5
    · obtain ⟨kv2, hm, he⟩ := h2
      have := mem_extract_nutritional_info s kv2 hm
      rw [he]
      simp only [nutritional_fields] at this
      simp at this ⊢
      tauto

/-- `extract_product_info_from_text` never yields an `expiry_date` key. -/
theorem extract_product_info_no_expiry (s : String) :
    ∀ kv ∈ extract_product_info_from_text s, kv.1 ≠ "expiry_date" := by
  intro kv h
  have := mem_extract_product_info s kv h
  simp at this
  rcases this with h | h | h | h | h | h | h | h | h | h <;> simp [h]

/-- `storageStep` preserves every other key. -/
theorem dLookup_storageStep_ne (t : String) (info : PyDict) (k : String)
    (h : k ≠ "storage_instructions") :
    dLookup (storageStep t info) k = dLookup info k := by
  refine dLookup_foldl_keyed "storage_instructions" _ ?_ storagePatterns info k h
  intro acc p k2 h2
  dsimp only
  split
  · rfl
  · exact dLookup_dSet_ne _ _ _ _ (fun he => h2 he.symm)

/-- `barcodeStep` preserves every other key. -/
theorem dLookup_barcodeStep_ne (t : String) (info : PyDict) (k : String)
    (h : k ≠ "barcode") :
    dLookup (barcodeStep t info) k = dLookup info k := by
  refine dLookup_foldl_keyed "barcode" _ ?_ barcodePatterns info k h
  intro acc p k2 h2
  dsimp only
  split
  · exact dLookup_dSet_ne _ _ _ _ (fun he => h2 he.symm)
  · rfl

/-- `unitStep` preserves every other key. -/
theorem dLookup_unitStep_ne (t : String) (info : PyDict) (k : String)
    (h : k ≠ "unit") :
    dLookup (unitStep t info) k = dLookup info k := by
  unfold unitStep
  split
  · split
    · rfl
    · exact dLookup_dSet_ne _ _ _ _ (fun he => h he.symm)
  · rfl

/-! ## Claim C10: zero treated as absent -/

/-- Claim C10: a numeric zero reading is indistinguishable from no reading —
`extract_product_info_from_text` never carries `quantity = 0` (Python
truthiness drops it), the structured-copy guard of the product pass skips a
structured quantity/nutrition value of 0, and on a structured response whose
quantity and calories are 0 the merge produces no such fields at all. -/
theorem claim_C10_zero_as_absent :
    (∀ (s : String) (v : PyVal),
      dLookup (extract_product_info_from_text s) "quantity" = some v →
        ∃ q, v = .num q ∧ (q == (0 : PyNum)) = false) ∧
    (∀ (d ed : PyDict) (key : String), dGet d key = .num 0 →
      copyStructured d key ed = ed) ∧
    process_pantry_item_images 2025
      (some (.returns "\x7b\"quantity\": 0, \"calories\": 0\x7d"))
      Option.none Option.none = [] := by
  refine ⟨?_, ?_, by rfl⟩
  · intro s v h
    by_cases hs : s.data.isEmpty
    · unfold extract_product_info_from_text at h
      rw [if_pos hs] at h
      simp [dLookup] at h
    · unfold extract_product_info_from_text at h
      rw [if_neg hs] at h
      rw [dLookup_storageStep_ne _ _ _ (by simp)] at h
      rw [dLookup_dUpdate_notmem _ _ _ (by
        intro kv hkv
        have := mem_extract_nutritional_info s kv hkv
        simp [nutritional_fields] at this
        rcases this with h1 | h1 | h1 | h1 | h1 <;> simp [h1])] at h
      unfold quantityUnitStep at h
      rw [dLookup_unitStep_ne _ _ _ (by simp)] at h
      have hbase : dLookup (barcodeStep s (nameStep s)) "quantity" =
          Option.none := by
        rw [dLookup_barcodeStep_ne _ _ _ (by simp)]
        unfold nameStep
        split
        · rw [dLookup_dSet_ne _ _ _ _ (by simp)]
          rfl
        · rfl
      unfold quantityStep at h
      split at h
      · rename_i q hq
        split at h
        · rw [hbase] at h
          exact absurd h (by simp)
        · rename_i hq0
          rw [dLookup_dSet_self] at h
          injection h with h
          exact ⟨q, h.symm, by simpa using hq0⟩
      · rw [hbase] at h
        exact absurd h (by simp)
  · intro d ed key hget
    unfold copyStructured
    rw [hget]
    have h0 : pyTruthy (.num 0) = false := by decide
    rw [h0]
    simp

/-- Witness for C10: "weight 500 g" yields a nonzero quantity, and a
structured `quantity = 0` is not copied. -/
theorem claim_C10_zero_as_absent_witness :
    (∃ q, (PyVal.num 500) = PyVal.num q ∧ (q == (0 : PyNum)) = false) ∧
    copyStructured [("quantity", PyVal.num 0)] "quantity"
      [("product_name", PyVal.str "Oats")] =
      [("product_name", PyVal.str "Oats")] :=
  ⟨claim_C10_zero_as_absent.1 "weight 500 g" (PyVal.num 500) (by rfl),
   claim_C10_zero_as_absent.2.1 _ _ "quantity" (by rfl)⟩

/-! ## Claim C6: nutrition pattern precedence -/

/-- `nutrientFold` preserves other keys. -/
theorem dLookup_nutrientFold_ne (ps : List RE) (tl : String) (key : String)
    (acc : PyDict) (k : String) (h : k ≠ key) :
    dLookup (nutrientFold ps tl key acc) k = dLookup acc k := by
  refine dLookup_foldl_keyed key _ ?_ ps acc k h
  intro acc2 p k2 h2
  dsimp only
  split
  · rfl
  · exact dLookup_dSet_ne _ _ _ _ (fun he => h2 he.symm)

/-- The first match of the LAST matching pattern of an ordered pattern list:
what each nutrient loop actually keeps, since its `break` leaves only the
inner loop and later patterns overwrite. -/
def lastPatternHit (ps : List RE) (tl : String) : Option String :=
  match ps with
  | [] => Option.none
  | p :: rest =>
      match lastPatternHit rest tl with
      | some m => some m
      | Option.none => (findall1 p tl).head?

/-- The nutrient value the last matching pattern yields. -/
def lastNutrientValue (ps : List RE) (tl : String) : Option PyVal :=
  (lastPatternHit ps tl).map (fun m => .num (strToFloat m))

/-- One nutrient loop computes exactly the last matching pattern's first
match (falling back to whatever the accumulator held). -/
theorem nutrientFold_lookup (ps : List RE) (tl : String) (key : String) :
    ∀ acc : PyDict, dLookup (nutrientFold ps tl key acc) key =
      match lastPatternHit ps tl with
      | some m => some (.num (strToFloat m))
      | Option.none => dLookup acc key := by
  induction ps with
  | nil => intro acc; rfl
  | cons p rest ih =>
      intro acc
      have hstep : nutrientFold (p :: rest) tl key acc =
          nutrientFold rest tl key
            (match findall1 p tl with
             | [] => acc
             | m :: _ => dSet acc key (.num (strToFloat m))) := by
        simp [nutrientFold, List.foldl_cons]
      rw [hstep, ih]
      cases hl : lastPatternHit rest tl with
      | some m => simp [lastPatternHit, hl]
      | none =>
          cases hf : findall1 p tl with
          | nil => simp [lastPatternHit, hl, hf]
          | cons m ms => simp [lastPatternHit, hl, hf]

/-- Claim C6 (amended): each nutrient is extracted independently of the
others, and its value is the first match of the LAST pattern in its ordered
list that matches (the code's `break` only leaves the inner match loop, so a
later pattern overwrites an earlier one — not first-pattern-wins). -/
theorem claim_C6_nutrition_last_pattern_wins (text : String) :
    dLookup (extract_nutritional_info text) "calories" =
      lastNutrientValue caloriePatterns (lowerStr text) ∧
    dLookup (extract_nutritional_info text) "protein" =
      lastNutrientValue proteinPatterns (lowerStr text) ∧
    dLookup (extract_nutritional_info text) "carbs" =
      lastNutrientValue carbsPatterns (lowerStr text) ∧
    dLookup (extract_nutritional_info text) "fat" =
      lastNutrientValue fatPatterns (lowerStr text) ∧
    dLookup (extract_nutritional_info text) "fiber" =
      lastNutrientValue fiberPatterns (lowerStr text) := by
  by_cases ht : text.data.isEmpty
  · obtain ⟨data⟩ := text
    have hd : data = [] := by
      cases data with
      | nil => rfl
      | cons c t => simp at ht
    subst hd
    refine ⟨by rfl, by rfl, by rfl, by rfl, by rfl⟩
  · have hopen : extract_nutritional_info text =
        nutrientFold fiberPatterns (lowerStr text) "fiber"
          (nutrientFold fatPatterns (lowerStr text) "fat"
            (nutrientFold carbsPatterns (lowerStr text) "carbs"
              (nutrientFold proteinPatterns (lowerStr text) "protein"
                (nutrientFold caloriePatterns (lowerStr text) "calories"
                  [])))) := by
      unfold extract_nutritional_info
      rw [if_neg ht]
    rw [hopen]
    refine ⟨?_, ?_, ?_, ?_, ?_⟩
    · rw [dLookup_nutrientFold_ne fiberPatterns _ "fiber" _ "calories" (by simp),
        dLookup_nutrientFold_ne fatPatterns _ "fat" _ "calories" (by simp),
        dLookup_nutrientFold_ne carbsPatterns _ "carbs" _ "calories" (by simp),
        dLookup_nutrientFold_ne proteinPatterns _ "protein" _ "calories" (by simp),
        nutrientFold_lookup]
      cases hl : lastPatternHit caloriePatterns (lowerStr text) <;>
        simp [lastNutrientValue, hl, dLookup]
    · rw [dLookup_nutrientFold_ne fiberPatterns _ "fiber" _ "protein" (by simp),
        dLookup_nutrientFold_ne fatPatterns _ "fat" _ "protein" (by simp),
        dLookup_nutrientFold_ne carbsPatterns _ "carbs" _ "protein" (by simp),
        nutrientFold_lookup]
      cases hl : lastPatternHit proteinPatterns (lowerStr text) <;>
        simp [lastNutrientValue, hl,
          dLookup_nutrientFold_ne caloriePatterns _ "calories" _ "protein"
            (by simp), dLookup]
    · rw [dLookup_nutrientFold_ne fiberPatterns _ "fiber" _ "carbs" (by simp),
        dLookup_nutrientFold_ne fatPatterns _ "fat" _ "carbs" (by simp),
        nutrientFold_lookup]
      cases hl : lastPatternHit carbsPatterns (lowerStr text) <;>
        simp [lastNutrientValue, hl,
          dLookup_nutrientFold_ne proteinPatterns _ "protein" _ "carbs"
            (by simp),
          dLookup_nutrientFold_ne caloriePatterns _ "calories" _ "carbs"
            (by simp), dLookup]
    · rw [dLookup_nutrientFold_ne fiberPatterns _ "fiber" _ "fat" (by simp),
        nutrientFold_lookup]
      cases hl : lastPatternHit fatPatterns (lowerStr text) <;>
        simp [lastNutrientValue, hl,
          dLookup_nutrientFold_ne carbsPatterns _ "carbs" _ "fat" (by simp),
          dLookup_nutrientFold_ne proteinPatterns _ "protein" _ "fat" (by simp),
          dLookup_nutrientFold_ne caloriePatterns _ "calories" _ "fat"
            (by simp), dLookup]
    · rw [nutrientFold_lookup]
      cases hl : lastPatternHit fiberPatterns (lowerStr text) <;>
        simp [lastNutrientValue, hl,
          dLookup_nutrientFold_ne fatPatterns _ "fat" _ "fiber" (by simp),
          dLookup_nutrientFold_ne carbsPatterns _ "carbs" _ "fiber" (by simp),
          dLookup_nutrientFold_ne proteinPatterns _ "protein" _ "fiber"
            (by simp),
          dLookup_nutrientFold_ne caloriePatterns _ "calories" _ "fiber"
            (by simp), dLookup]

/-- Counterexample to C6 as stated: in
"calories: 1 energy: 2 kcal" the FIRST calorie pattern matches (capturing
"1"), yet the extracted calories value is 2 — the later "energy" pattern
replaced it. -/
theorem claim_C6_counterexample :
    caloriePatterns.map
        (fun p => (findall1 p (lowerStr "calories: 1 energy: 2 kcal")).head?) =
      [some "1", some "2", Option.none] ∧
    dLookup (extract_nutritional_info "calories: 1 energy: 2 kcal")
        "calories" = some (.num 2) ∧
    (PyVal.num 2 ≠ .num 1) := by
  refine ⟨by rfl, by rfl, ?_⟩
  intro h
  injection h with h
  injection h with h1 h2
  exact absurd h1 (by decide)

/-! ## Merge-pass preservation lemmas -/

/-- `copyStructured` for another key preserves lookups. -/
theorem dLookup_copyStructured_ne (d : PyDict) (key : String) (ed : PyDict)
    (k : String) (h : key ≠ k) :
    dLookup (copyStructured d key ed) k = dLookup ed k := by
  unfold copyStructured
  split
  · exact dLookup_dSet_ne _ _ _ _ h
  · rfl

/-- The structured nutrition copies preserve `expiry_date`. -/
theorem dLookup_nutrition_copies_expiry (d : PyDict) (ed : PyDict) :
    dLookup (nutritional_fields.foldl (fun e f => copyStructured d f e) ed)
      "expiry_date" = dLookup ed "expiry_date" := by
  simp only [nutritional_fields, List.foldl_cons, List.foldl_nil]
  rw [dLookup_copyStructured_ne _ "fiber" _ _ (by simp),
    dLookup_copyStructured_ne _ "fat" _ _ (by simp),
    dLookup_copyStructured_ne _ "carbs" _ _ (by simp),
    dLookup_copyStructured_ne _ "protein" _ _ (by simp),
    dLookup_copyStructured_ne _ "calories" _ _ (by simp)]

/-- `fillAbsent` with a record lacking key `k` preserves `k`. -/
theorem dLookup_fillAbsent_notmem (info : PyDict) :
    ∀ (ed : PyDict) (k : String), (∀ kv ∈ info, kv.1 ≠ k) →
      dLookup (fillAbsent ed info) k = dLookup ed k := by
  induction info with
  | nil => intro ed k _; rfl
  | cons kv t ih =>
      intro ed k h
      have hstep : fillAbsent ed (kv :: t) =
          fillAbsent (if !dHas ed kv.1 || !pyTruthy (dGet ed kv.1)
            then dSet ed kv.1 kv.2 else ed) t := by
        simp [fillAbsent, List.foldl_cons]
      rw [hstep, ih _ k (fun kv2 h2 => h kv2 (List.mem_cons_of_mem _ h2))]
      split
      · exact dLookup_dSet_ne _ _ _ _ (h kv (List.mem_cons_self _ _))
      · rfl

/-- `fillAbsent` never replaces a key that is present with a truthy value. -/
theorem dLookup_fillAbsent_truthy (info : PyDict) :
    ∀ (ed : PyDict) (k : String), dHas ed k = true →
      pyTruthy (dGet ed k) = true →
        dLookup (fillAbsent ed info) k = dLookup ed k := by
  induction info with
  | nil => intro ed k _ _; rfl
  | cons kv t ih =>
      intro ed k hh ht
      have hstep : fillAbsent ed (kv :: t) =
          fillAbsent (if !dHas ed kv.1 || !pyTruthy (dGet ed kv.1)
            then dSet ed kv.1 kv.2 else ed) t := by
        simp [fillAbsent, List.foldl_cons]
      rw [hstep]
      by_cases hkk : kv.1 = k
      · rw [hkk, hh, ht]
        simp only [Bool.not_true, Bool.or_self, Bool.false_eq_true, if_false]
        exact ih ed k hh ht
      · split
        · have hh2 : dHas (dSet ed kv.1 kv.2) k = true := by
            rw [dHas_dSet_ne _ _ _ _ hkk]; exact hh
          have hget2 : dGet (dSet ed kv.1 kv.2) k = dGet ed k :=
            dGet_dSet_ne _ _ _ _ hkk
          rw [ih _ k hh2 (by rw [hget2]; exact ht),
            dLookup_dSet_ne _ _ _ _ hkk]
        · exact ih ed k hh ht

/-- Once the accumulator holds an `expiry_date` key, the product-image pass
— whether it completes or raises — leaves that entry untouched. -/
theorem productPass_preserves_expiry (cy : Nat) (img : Option VisionOut)
    (ed : PyDict) (h : dHas ed "expiry_date" = true) :
    dGet (exceptVal (runProductPass cy img ed)) "expiry_date" =
      dGet ed "expiry_date" := by
  have hcopies : ∀ (d : PyDict) (e1 : PyDict),
      dLookup (copyStructured d "storage_instructions"
        (nutritional_fields.foldl (fun e f => copyStructured d f e)
          (copyStructured d "unit" (copyStructured d "quantity"
            (copyStructured d "barcode"
              (copyStructured d "product_name" e1))))))
        "expiry_date" = dLookup e1 "expiry_date" := by
    intro d e1
    rw [dLookup_copyStructured_ne _ "storage_instructions" _ _ (by simp),
      dLookup_nutrition_copies_expiry,
      dLookup_copyStructured_ne _ "unit" _ _ (by simp),
      dLookup_copyStructured_ne _ "quantity" _ _ (by simp),
      dLookup_copyStructured_ne _ "barcode" _ _ (by simp),
      dLookup_copyStructured_ne _ "product_name" _ _ (by simp)]
  cases img with
  | none => rfl
  | some im =>
      cases hx : extract_text_from_image im with
      | none => simp [runProductPass, hx, exceptVal]
      | some ai =>
          by_cases hai : pyTruthy ai = true
          · cases ai with
            | dict d =>
                simp only [runProductPass, hx, hai, if_true, h, Bool.not_true,
                  Bool.false_eq_true, if_false]
                by_cases hdt : pyTruthy (dGet d "detected_text") = true
                · rw [if_pos hdt]
                  cases hv : dGet d "detected_text" with
                  | str s =>
                      simp only [exceptVal, dGet]
                      rw [dLookup_fillAbsent_notmem _ _ _
                        (extract_product_info_no_expiry s), hcopies]
                  | none => simp only [exceptVal, dGet, hcopies]
                  | num q => simp only [exceptVal, dGet, hcopies]
                  | boolean b => simp only [exceptVal, dGet, hcopies]
                  | date dd => simp only [exceptVal, dGet, hcopies]
                  | dict dd => simp only [exceptVal, dGet, hcopies]
                  | listv l => simp only [exceptVal, dGet, hcopies]
                · rw [if_neg hdt]
                  simp only [exceptVal, dGet, hcopies]
            | none => exact absurd hai (by decide)
            | str s => simp [runProductPass, hx, hai, exceptVal]
            | num q => simp [runProductPass, hx, hai, exceptVal]
            | boolean b => simp [runProductPass, hx, hai, exceptVal]
            | date dd => simp [runProductPass, hx, hai, exceptVal]
            | listv l => simp [runProductPass, hx, hai, exceptVal]
          · simp [runProductPass, hx, hai, exceptVal]

/-! ## Claim C5: fill-if-absent, amended -/

/-- Claim C5 (amended): fill-if-absent holds only where the code guards for
it — the product pass never touches an `expiry_date` already in the
accumulator, and the product pass's final text-extraction fallback never
overwrites a key that is present with a truthy value.  (Elsewhere the claim
fails: the label pass's `update()` and the product pass's structured copies
overwrite unconditionally — see the counterexample.) -/
theorem claim_C5_fill_if_absent_amended :
    (∀ (cy : Nat) (img : Option VisionOut) (ed : PyDict),
      dHas ed "expiry_date" = true →
        dGet (exceptVal (runProductPass cy img ed)) "expiry_date" =
          dGet ed "expiry_date") ∧
    (∀ (info ed : PyDict) (k : String), dHas ed k = true →
      pyTruthy (dGet ed k) = true →
        dGet (fillAbsent ed info) k = dGet ed k) := by
  constructor
  · intro cy img ed h
    exact productPass_preserves_expiry cy img ed h
  · intro info ed k hh ht
    unfold dGet
    rw [dLookup_fillAbsent_truthy info ed k hh ht]

/-- Witness for C5 (amended) at concrete inputs. -/
theorem claim_C5_fill_if_absent_amended_witness :
    dGet (exceptVal (runProductPass 2025
        (some (.returns "\x7b\"expiry_date\": \"2025-02-01\"\x7d"))
        [("expiry_date", PyVal.str "2025-01-01")])) "expiry_date" =
      dGet [("expiry_date", PyVal.str "2025-01-01")] "expiry_date" ∧
    dGet (fillAbsent [("product_name", PyVal.str "Kept Name")]
        [("product_name", PyVal.str "Other Name")]) "product_name" =
      dGet [("product_name", PyVal.str "Kept Name")] "product_name" :=
  ⟨claim_C5_fill_if_absent_amended.1 2025 _ _ (by rfl),
   claim_C5_fill_if_absent_amended.2 _ _ "product_name" (by rfl) (by rfl)⟩

/-- Counterexample to C5 as stated: `product_name` supplied in
`current_data` (the highest-priority source) is overwritten by the label
pass's `update()` with the name extracted from the label's free text. -/
theorem claim_C5_counterexample :
    dGet (process_pantry_item_images 2025 Option.none
        (some (.returns "\x7b\"detected_text\": \"Tasty Oat Flakes\"\x7d"))
        (some [("product_name", PyVal.str "My Old Name")])) "product_name" =
      .str "Tasty Oat Flakes" ∧
    PyVal.str "Tasty Oat Flakes" ≠ .str "My Old Name" := by
  refine ⟨by rfl, ?_⟩
  intro h
  injection h with h
  exact absurd h (by decide)

/-! ## Claim C2: label image authoritative for expiry_date -/

/-- "The label pass yields expiry_date `v`": the label image's response is a
JSON object whose structured `expiry_date` is truthy (and equal to `v`), or
whose structured `expiry_date` is falsy but whose `detected_text` is a
nonempty string from which `parse_expiry_date_from_text` extracts the date
`v`. -/
def labelYields (cy : Nat) (img : Option VisionOut) (v : PyVal) : Prop :=
  ∃ im d, img = some im ∧ extract_text_from_image im = some (.dict d) ∧
    ((pyTruthy (dGet d "expiry_date") = true ∧ v = dGet d "expiry_date") ∨
     (pyTruthy (dGet d "expiry_date") = false ∧
      ∃ s dt, dGet d "detected_text" = .str s ∧ s.data.isEmpty = false ∧
        parse_expiry_date_from_text cy s = some dt ∧ v = .date dt))

/-- After a yielding label pass the accumulator holds `expiry_date = v`,
whether the pass completed or raised later. -/
theorem labelPass_yields (cy : Nat) (im : VisionOut) (d : PyDict)
    (ed : PyDict) (v : PyVal)
    (hx : extract_text_from_image im = some (.dict d))
    (hv : (pyTruthy (dGet d "expiry_date") = true ∧ v = dGet d "expiry_date") ∨
      (pyTruthy (dGet d "expiry_date") = false ∧
       ∃ s dt, dGet d "detected_text" = .str s ∧ s.data.isEmpty = false ∧
         parse_expiry_date_from_text cy s = some dt ∧ v = .date dt)) :
    dGet (exceptVal (runLabelPass cy (some im) ed)) "expiry_date" = v ∧
    dHas (exceptVal (runLabelPass cy (some im) ed)) "expiry_date" = true := by
  have hdne : d ≠ [] := by
    intro hd
    subst hd
    rcases hv with ⟨h1, _⟩ | ⟨_, s, dt, hs, _⟩
    · exact absurd h1 (by decide)
    · exact absurd hs (by simp [dGet, dLookup])
  have hne : pyTruthy (.dict d) = true := by
    have hie : d.isEmpty = false := by
      cases d with
      | nil => exact absurd rfl hdne
      | cons a t => rfl
    simp [pyTruthy, hie]
  rcases hv with ⟨h1, h2⟩ | ⟨h1, s, dt, hs, hse, hp, h2⟩
  · simp only [runLabelPass, hx, hne, if_true, expiryBlock, h1]
    by_cases hdt : pyTruthy (dGet d "detected_text") = true
    · rw [if_pos hdt]
      cases hv2 : dGet d "detected_text" with
      | str s2 =>
          simp only [exceptVal, dGet, dHas]
          rw [dLookup_dUpdate_notmem _ _ _ (extract_product_info_no_expiry s2)]
          simp [h2, dGet]
      | none =>
          simp only [exceptVal, dGet, dHas]
          simp [h2, dGet]
      | num q => simp only [exceptVal, dGet, dHas]; simp [h2, dGet]
      | boolean b => simp only [exceptVal, dGet, dHas]; simp [h2, dGet]
      | date dd => simp only [exceptVal, dGet, dHas]; simp [h2, dGet]
      | dict dd => simp only [exceptVal, dGet, dHas]; simp [h2, dGet]
      | listv l => simp only [exceptVal, dGet, dHas]; simp [h2, dGet]
    · rw [if_neg hdt]
      simp only [exceptVal, dGet, dHas]
      simp [h2, dGet]
  · have hts : pyTruthy (PyVal.str s) = true := by simp [pyTruthy, hse]
    simp only [runLabelPass, hx, hne, if_true, expiryBlock, h1,
      Bool.false_eq_true, if_false, hs, hts, if_true, hp]
    simp only [exceptVal, dGet, dHas]
    rw [dLookup_dUpdate_notmem _ _ _ (extract_product_info_no_expiry s)]
    simp [h2, dGet]

/-- Claim C2: if the label pass yields an expiry_date (structured or via
date-parsing of its detected text), the merged record's expiry_date is that
value regardless of the product image, the current data, and in particular
regardless of any expiry_date the product image carries. -/
theorem claim_C2_label_expiry_authoritative (cy : Nat)
    (product label : Option VisionOut) (current : Option PyDict) (v : PyVal)
    (h : labelYields cy label v) :
    dGet (process_pantry_item_images cy product label current)
      "expiry_date" = v := by
  obtain ⟨im, d, himg, hx, hv⟩ := h
  subst himg
  have hl := labelPass_yields cy im d (current.getD []) v hx hv
  simp only [process_pantry_item_images]
  cases hr : runLabelPass cy (some im) (current.getD []) with
  | error e =>
      rw [hr] at hl
      simpa [exceptVal] using hl.1
  | ok e1 =>
      rw [hr] at hl
      simp only [exceptVal] at hl
      exact (productPass_preserves_expiry cy product e1 hl.2).trans hl.1

/-- Witness for C2: the spec's merge-priority example — label says
2025-01-01, product says 2025-02-01 and "Oats"; the merge keeps the label
date and the product name. -/
theorem claim_C2_label_expiry_authoritative_witness :
    dGet (process_pantry_item_images 2025
        (some (.returns
          "\x7b\"expiry_date\": \"2025-02-01\", \"product_name\": \"Oats\"\x7d"))
        (some (.returns "\x7b\"expiry_date\": \"2025-01-01\"\x7d"))
        Option.none) "expiry_date" = .str "2025-01-01" ∧
    dGet (process_pantry_item_images 2025
        (some (.returns
          "\x7b\"expiry_date\": \"2025-02-01\", \"product_name\": \"Oats\"\x7d"))
        (some (.returns "\x7b\"expiry_date\": \"2025-01-01\"\x7d"))
        Option.none) "product_name" = .str "Oats" :=
  ⟨claim_C2_label_expiry_authoritative 2025 _ _ Option.none
      (.str "2025-01-01")
      ⟨_, [("expiry_date", .str "2025-01-01")], rfl, by rfl,
        Or.inl ⟨by rfl, by rfl⟩⟩,
   by rfl⟩

/-! ## Claim C4: enrichment applier, second application -/

/-- One-step characterization of the `expiry_date` fill. -/
theorem stepFill_expiry_date_eq (v : PyVal) (cond : PyVal → Bool)
    (it : PantryItemE) (b : Bool) :
    stepFill v cond (·.expiry_date) (fun i w => { i with expiry_date := w }) (it, b) =
      ({ it with expiry_date := if pyTruthy v && cond it.expiry_date then v else it.expiry_date },
        b || (pyTruthy v && cond it.expiry_date)) := by
  unfold stepFill
  by_cases hc : (pyTruthy v && cond it.expiry_date) = true
  · simp [hc]
  · have hc2 : (pyTruthy v && cond it.expiry_date) = false := by simpa using hc
    simp [hc2]

/-- One-step characterization of the `name` fill. -/
theorem stepFill_name_eq (v : PyVal) (cond : PyVal → Bool)
    (it : PantryItemE) (b : Bool) :
    stepFill v cond (·.name) (fun i w => { i with name := w }) (it, b) =
      ({ it with name := if pyTruthy v && cond it.name then v else it.name },
        b || (pyTruthy v && cond it.name)) := by
  unfold stepFill
  by_cases hc : (pyTruthy v && cond it.name) = true
  · simp [hc]
  · have hc2 : (pyTruthy v && cond it.name) = false := by simpa using hc
    simp [hc2]

/-- One-step characterization of the `barcode` fill. -/
theorem stepFill_barcode_eq (v : PyVal) (cond : PyVal → Bool)
    (it : PantryItemE) (b : Bool) :
    stepFill v cond (·.barcode) (fun i w => { i with barcode := w }) (it, b) =
      ({ it with barcode := if pyTruthy v && cond it.barcode then v else it.barcode },
        b || (pyTruthy v && cond it.barcode)) := by
  unfold stepFill
  by_cases hc : (pyTruthy v && cond it.barcode) = true
  · simp [hc]
  · have hc2 : (pyTruthy v && cond it.barcode) = false := by simpa using hc
    simp [hc2]

/-- One-step characterization of the `calories` fill. -/
theorem stepFill_calories_eq (v : PyVal) (cond : PyVal → Bool)
    (it : PantryItemE) (b : Bool) :
    stepFill v cond (·.calories) (fun i w => { i with calories := w }) (it, b) =
      ({ it with calories := if pyTruthy v && cond it.calories then v else it.calories },
        b || (pyTruthy v && cond it.calories)) := by
  unfold stepFill
  by_cases hc : (pyTruthy v && cond it.calories) = true
  · simp [hc]
  · have hc2 : (pyTruthy v && cond it.calories) = false := by simpa using hc
    simp [hc2]

/-- One-step characterization of the `protein` fill. -/
theorem stepFill_protein_eq (v : PyVal) (cond : PyVal → Bool)
    (it : PantryItemE) (b : Bool) :
    stepFill v cond (·.protein) (fun i w => { i with protein := w }) (it, b) =
      ({ it with protein := if pyTruthy v && cond it.protein then v else it.protein },
        b || (pyTruthy v && cond it.protein)) := by
  unfold stepFill
  by_cases hc : (pyTruthy v && cond it.protein) = true
  · simp [hc]
  · have hc2 : (pyTruthy v && cond it.protein) = false := by simpa using hc
    simp [hc2]

/-- One-step characterization of the `carbs` fill. -/
theorem stepFill_carbs_eq (v : PyVal) (cond : PyVal → Bool)
    (it : PantryItemE) (b : Bool) :
    stepFill v cond (·.carbs) (fun i w => { i with carbs := w }) (it, b) =
      ({ it with carbs := if pyTruthy v && cond it.carbs then v else it.carbs },
        b || (pyTruthy v && cond it.carbs)) := by
  unfold stepFill
  by_cases hc : (pyTruthy v && cond it.carbs) = true
  · simp [hc]
  · have hc2 : (pyTruthy v && cond it.carbs) = false := by simpa using hc
    simp [hc2]

/-- One-step characterization of the `fat` fill. -/
theorem stepFill_fat_eq (v : PyVal) (cond : PyVal → Bool)
    (it : PantryItemE) (b : Bool) :
    stepFill v cond (·.fat) (fun i w => { i with fat := w }) (it, b) =
      ({ it with fat := if pyTruthy v && cond it.fat then v else it.fat },
        b || (pyTruthy v && cond it.fat)) := by
  unfold stepFill
  by_cases hc : (pyTruthy v && cond it.fat) = true
  · simp [hc]
  · have hc2 : (pyTruthy v && cond it.fat) = false := by simpa using hc
    simp [hc2]

/-- One-step characterization of the `fiber` fill. -/
theorem stepFill_fiber_eq (v : PyVal) (cond : PyVal → Bool)
    (it : PantryItemE) (b : Bool) :
    stepFill v cond (·.fiber) (fun i w => { i with fiber := w }) (it, b) =
      ({ it with fiber := if pyTruthy v && cond it.fiber then v else it.fiber },
        b || (pyTruthy v && cond it.fiber)) := by
  unfold stepFill
  by_cases hc : (pyTruthy v && cond it.fiber) = true
  · simp [hc]
  · have hc2 : (pyTruthy v && cond it.fiber) = false := by simpa using hc
    simp [hc2]

/-- One-step characterization of the `quantity` fill. -/
theorem stepFill_quantity_eq (v : PyVal) (cond : PyVal → Bool)
    (it : PantryItemE) (b : Bool) :
    stepFill v cond (·.quantity) (fun i w => { i with quantity := w }) (it, b) =
      ({ it with quantity := if pyTruthy v && cond it.quantity then v else it.quantity },
        b || (pyTruthy v && cond it.quantity)) := by
  unfold stepFill
  by_cases hc : (pyTruthy v && cond it.quantity) = true
  · simp [hc]
  · have hc2 : (pyTruthy v && cond it.quantity) = false := by simpa using hc
    simp [hc2]

/-- One-step characterization of the `unit` fill. -/
theorem stepFill_unit_eq (v : PyVal) (cond : PyVal → Bool)
    (it : PantryItemE) (b : Bool) :
    stepFill v cond (·.unit) (fun i w => { i with unit := w }) (it, b) =
      ({ it with unit := if pyTruthy v && cond it.unit then v else it.unit },
        b || (pyTruthy v && cond it.unit)) := by
  unfold stepFill
  by_cases hc : (pyTruthy v && cond it.unit) = true
  · simp [hc]
  · have hc2 : (pyTruthy v && cond it.unit) = false := by simpa using hc
    simp [hc2]

/-- One-step characterization of the `storage_instructions` fill. -/
theorem stepFill_storage_instructions_eq (v : PyVal) (cond : PyVal → Bool)
    (it : PantryItemE) (b : Bool) :
    stepFill v cond (·.storage_instructions) (fun i w => { i with storage_instructions := w }) (it, b) =
      ({ it with storage_instructions := if pyTruthy v && cond it.storage_instructions then v else it.storage_instructions },
        b || (pyTruthy v && cond it.storage_instructions)) := by
  unfold stepFill
  by_cases hc : (pyTruthy v && cond it.storage_instructions) = true
  · simp [hc]
  · have hc2 : (pyTruthy v && cond it.storage_instructions) = false := by simpa using hc
    simp [hc2]

/-- Closed form of the update phase: each field is filled exactly when its
extracted value is truthy and the field is at its unset sentinel, and
`updated` is the disjunction of those conditions. -/
theorem applyExtracted_eq (ex : PyDict) (it : PantryItemE) :
    applyExtracted ex it =
      ({ it with
        expiry_date := if pyTruthy (dGet ex "expiry_date") && condFalsy it.expiry_date then dGet ex "expiry_date" else it.expiry_date,
        name := if pyTruthy (dGet ex "product_name") && condFalsy it.name then dGet ex "product_name" else it.name,
        barcode := if pyTruthy (dGet ex "barcode") && condFalsy it.barcode then dGet ex "barcode" else it.barcode,
        calories := if pyTruthy (dGet ex "calories") && condZero it.calories then dGet ex "calories" else it.calories,
        protein := if pyTruthy (dGet ex "protein") && condZero it.protein then dGet ex "protein" else it.protein,
        carbs := if pyTruthy (dGet ex "carbs") && condZero it.carbs then dGet ex "carbs" else it.carbs,
        fat := if pyTruthy (dGet ex "fat") && condZero it.fat then dGet ex "fat" else it.fat,
        fiber := if pyTruthy (dGet ex "fiber") && condZero it.fiber then dGet ex "fiber" else it.fiber,
        quantity := if pyTruthy (dGet ex "quantity") && condOne it.quantity then dGet ex "quantity" else it.quantity,
        unit := if pyTruthy (dGet ex "unit") && condFalsy it.unit then dGet ex "unit" else it.unit,
        storage_instructions := if pyTruthy (dGet ex "storage_instructions") && condFalsy it.storage_instructions then dGet ex "storage_instructions" else it.storage_instructions },
        false ||
        (pyTruthy (dGet ex "expiry_date") && condFalsy it.expiry_date) ||
        (pyTruthy (dGet ex "product_name") && condFalsy it.name) ||
        (pyTruthy (dGet ex "barcode") && condFalsy it.barcode) ||
        (pyTruthy (dGet ex "calories") && condZero it.calories) ||
        (pyTruthy (dGet ex "protein") && condZero it.protein) ||
        (pyTruthy (dGet ex "carbs") && condZero it.carbs) ||
        (pyTruthy (dGet ex "fat") && condZero it.fat) ||
        (pyTruthy (dGet ex "fiber") && condZero it.fiber) ||
        (pyTruthy (dGet ex "quantity") && condOne it.quantity) ||
        (pyTruthy (dGet ex "unit") && condFalsy it.unit) ||
        (pyTruthy (dGet ex "storage_instructions") && condFalsy it.storage_instructions)) := by
  simp only [applyExtracted]
  rw [stepFill_expiry_date_eq, stepFill_name_eq, stepFill_barcode_eq, stepFill_calories_eq, stepFill_protein_eq, stepFill_carbs_eq, stepFill_fat_eq, stepFill_fiber_eq, stepFill_quantity_eq, stepFill_unit_eq, stepFill_storage_instructions_eq]

/-- A truthy-guarded fill of a falsy field cannot fire twice. -/
theorem condFalsy_second (v old : PyVal) :
    (pyTruthy v && condFalsy (if pyTruthy v && condFalsy old then v else old))
      = false := by
  cases hv2 : pyTruthy v with
  | false => simp [hv2]
  | true =>
      cases ho2 : condFalsy old with
      | true => simp [hv2, ho2, condFalsy]
      | false => simp [hv2, ho2]

/-- A truthy-guarded fill of a zero-sentinel field cannot fire twice. -/
theorem condZero_second (v old : PyVal) :
    (pyTruthy v && condZero (if pyTruthy v && condZero old then v else old))
      = false := by
  cases hv2 : pyTruthy v with
  | false => simp [hv2]
  | true =>
      cases ho2 : condZero old with
      | true => simp [hv2, ho2, condZero, truthy_not_zero v hv2]
      | false => simp [hv2, ho2]

/-- The quantity fill can fire twice (exactly when the value written equals
the 1.0 sentinel), but the state it writes is unchanged. -/
theorem condOne_second_state (v old : PyVal) :
    (if pyTruthy v && condOne (if pyTruthy v && condOne old then v else old)
     then v else (if pyTruthy v && condOne old then v else old)) =
      (if pyTruthy v && condOne old then v else old) := by
  by_cases h1 : (pyTruthy v && condOne old) = true
  · simp [h1]
  · have h1f : (pyTruthy v && condOne old) = false := by simpa using h1
    simp [h1f]

/-- When the quantity fill does fire on the second pass, the enriched
quantity compares equal to the 1.0 sentinel. -/
theorem condOne_second_cond (v old : PyVal)
    (h : (pyTruthy v &&
      condOne (if pyTruthy v && condOne old then v else old)) = true) :
    pyEq (if pyTruthy v && condOne old then v else old) (.num 1) = true := by
  have hb := ((Bool.and_eq_true _ _).mp h).2
  exact hb

/-- Applying the update phase twice with the same extracted record is a
state fixpoint, and the second `updated` flag is true exactly when the
extracted quantity is truthy and the once-enriched quantity compares equal
to the 1.0 sentinel. -/
theorem applyExtracted_second (ex : PyDict) (it : PantryItemE) :
    applyExtracted ex (applyExtracted ex it).1 =
      ((applyExtracted ex it).1,
        pyTruthy (dGet ex "quantity") &&
          pyEq (applyExtracted ex it).1.quantity (.num 1)) := by
  rw [applyExtracted_eq ex it]
  dsimp only
  rw [applyExtracted_eq]
  dsimp only
  rw [condOne_second_state]
  simp only [condFalsy_second, condZero_second, Bool.false_eq_true, if_false,
    Bool.or_false, Bool.false_or, condOne]

/-- Claim C4 (amended): a second application of the enrichment applier with
the same images never changes any field of the item; it can report "changed"
(and re-save) only in the sentinel collision where the extracted quantity is
truthy and the once-enriched quantity compares equal to the default sentinel
1.0 — otherwise it returns False.  (The unamended claim that the second
application always returns False fails; see the counterexample.) -/
theorem claim_C4_enrich_second_application (cy : Nat) (item : PantryItemE) :
    (enhance_pantry_item_with_ai cy
        (enhance_pantry_item_with_ai cy item).1).1 =
      (enhance_pantry_item_with_ai cy item).1 ∧
    ((enhance_pantry_item_with_ai cy
        (enhance_pantry_item_with_ai cy item).1).2 = true →
      pyEq (enhance_pantry_item_with_ai cy item).1.quantity (.num 1)
        = true) := by
  have hex : extractedOf cy
      (applyExtracted (extractedOf cy item) item).1 = extractedOf cy item := by
    rw [applyExtracted_eq]
    rfl
  unfold enhance_pantry_item_with_ai
  rw [hex, applyExtracted_second]
  constructor
  · rfl
  · intro h
    exact ((Bool.and_eq_true _ _).mp h).2

/-- An item at the quantity sentinel whose label photo reads "x 1 kg". -/
def enrichSampleItem : PantryItemE :=
  { expiry_label_image := some (.returns "\x7b\"detected_text\": \"x 1 kg\"\x7d")
    product_image := Option.none
    name := .str ""
    expiry_date := .none
    barcode := .str ""
    calories := .num 0
    protein := .num 0
    carbs := .num 0
    fat := .num 0
    fiber := .num 0
    quantity := .num 1
    unit := .str ""
    storage_instructions := .str "" }

/-- Counterexample to C4 as stated: with an extracted quantity of 1.0 and an
item at the 1.0 sentinel, the applier reports "changed" (and re-saves) on
the first AND on the second application — the second is not "no change"
(False). -/
theorem claim_C4_counterexample :
    (enhance_pantry_item_with_ai 2025 enrichSampleItem).2 = true ∧
    (enhance_pantry_item_with_ai 2025
      (enhance_pantry_item_with_ai 2025 enrichSampleItem).1).2 = true :=
  ⟨rfl, rfl⟩

/-- Witness for C4 (amended) at the sample item. -/
theorem claim_C4_enrich_second_application_witness :
    (enhance_pantry_item_with_ai 2025
        (enhance_pantry_item_with_ai 2025 enrichSampleItem).1).1 =
      (enhance_pantry_item_with_ai 2025 enrichSampleItem).1 ∧
    pyEq (enhance_pantry_item_with_ai 2025 enrichSampleItem).1.quantity
      (.num 1) = true :=
  ⟨(claim_C4_enrich_second_application 2025 enrichSampleItem).1,
   (claim_C4_enrich_second_application 2025 enrichSampleItem).2 (by rfl)⟩
